import Mathlib

/-!
Verification of the pennywise double-entry ledger core
(src/modules/transactions/service.py, src/modules/accounts/service.py,
src/modules/currencies/service.py, src/models/accounts.py,
src/models/transactions.py).

Embedding conventions:
* Python `Decimal` amounts and rates are embedded as exact rationals.
* SQL `Date` and `DateTime` values are embedded as natural numbers; a calendar
  date `d` corresponds to the datetime `86400 * d` (its midnight), so that
  intra-day timestamps sit strictly between consecutive dates.
* The SQLAlchemy session is embedded as an explicit `DB` record; every write
  path returns `Except LedgerError (DB × _)`.  An `.error` result models a
  raised `ValueError` before `db.commit()`: nothing is persisted.
* `AccountService.create_pot` issues several distinct `db.commit()` calls, so
  it returns the ordered list of committed states.
-/

namespace Pennywise

abbrev Amount := ℚ

/-- Currency row (src/models/accounts.py, class Currency). -/
structure Currency where
  id : Nat
  code : String
  name : String
  symbol : String
  decimals : Nat
  is_active : Bool
deriving Repr, DecidableEq

/-- Exchange-rate row (src/models/accounts.py, class ExchangeRate). -/
structure ExchangeRate where
  from_currency_id : Nat
  to_currency_id : Nat
  rate : Amount
  timestamp : Nat
deriving Repr, DecidableEq

/-- Account row (src/models/accounts.py, class Account); only the columns the
    ledger core reads are modelled. -/
structure Account where
  id : Nat
  name : String
  currency_id : Nat
  balance : Amount
  is_external : Bool
deriving Repr, DecidableEq

/-- Pot row (src/models/accounts.py, class Pot). -/
structure Pot where
  id : Nat
  name : String
  target_amount : Amount
  current_amount : Amount
  is_active : Bool
  account_id : Nat
deriving Repr, DecidableEq

/-- Transaction row (src/models/transactions.py, class Transaction). -/
structure Transaction where
  id : Nat
  description : String
  date : Nat
  currency_id : Nat
deriving Repr, DecidableEq

/-- Transaction-leg row (src/models/transactions.py, class TransactionLeg). -/
structure TransactionLeg where
  id : Nat
  transaction_id : Nat
  account_id : Nat
  pot_id : Option Nat
  currency_id : Nat
  debit : Option Amount
  credit : Option Amount
  exchange_rate : Amount
deriving Repr, DecidableEq

/-- The persistent store: one list per table, plus primary-key counters
    standing for the autoincrement columns. -/
structure DB where
  currencies : List Currency
  exchange_rates : List ExchangeRate
  accounts : List Account
  pots : List Pot
  transactions : List Transaction
  legs : List TransactionLeg
  next_transaction_id : Nat
  next_leg_id : Nat
  next_pot_id : Nat
deriving Repr, DecidableEq

/-- The distinct `ValueError` / `IndexError` / `TypeError` failures raised by
    the services, keyed by the raise site: `indexError` is the `legs[0]`
    access on an empty list, `invalidAccountType` the `AccountType(...)` enum
    lookup on an unknown string, and `typeError` the positional argument that
    `Currency(currency)` passes to the keyword-only SQLAlchemy declarative
    constructor inside `create_account`. -/
inductive LedgerError where
  | accountNotFound
  | currencyNotFound
  | exchangeRateMissing
  | unbalancedLegs
  | indexError
  | potNotFound
  | potOwnershipMismatch
  | insufficientFunds
  | invalidAccountType
  | typeError
deriving Repr, DecidableEq

/-- Input dictionary for one leg of `create_multi_leg_transaction`
    (`TransactionLegDict` in src/modules/transactions/service.py).  The Python
    TypedDicts declare `account_id`, an optional `pot_id`, and a `debit` or a
    `credit`; the function reads all four keys with `.get`, so both amount
    fields are optional here. -/
structure LegInput where
  account_id : Nat
  pot_id : Option Nat := none
  debit : Option Amount := none
  credit : Option Amount := none
deriving Repr, DecidableEq

/-- Python `datetime.combine(d, datetime.min.time())`: the datetime at midnight of
    calendar date `d`. -/
def dateStartTime (d : Nat) : Nat := 86400 * d

/-- Source `BaseService.get` specialised to accounts
    (src/modules/common/base_service.py): first row whose id matches. -/
def get_account (db : DB) (id : Nat) : Option Account :=
  db.accounts.find? (fun a => a.id == id)

/-- Source `db.query(Pot).get(pot_id)`: primary-key lookup. -/
def get_pot (db : DB) (id : Nat) : Option Pot :=
  db.pots.find? (fun p => p.id == id)

/-- Resolution of the `account.currency` relationship: the currency row the
    foreign key points at. -/
def get_currency (db : DB) (id : Nat) : Option Currency :=
  db.currencies.find? (fun c => c.id == id)

/-- Python `code.upper()`: ASCII upper-casing, written structurally over the
    character list (the library `String.toUpper` is semantically identical but
    not reducible by the kernel). -/
def upper (s : String) : String := String.mk (s.data.map Char.toUpper)

/-- Source `CurrencyService.get_by_code`: first currency whose code equals the
    upper-cased argument. -/
def get_by_code (db : DB) (code : String) : Option Currency :=
  db.currencies.find? (fun c => c.code == upper code)

/-- Query `.order_by(ExchangeRate.timestamp.desc()).first()` over a filtered rate
    list: the row with the greatest timestamp (first such row on a tie). -/
def latestRate : List ExchangeRate → Option ExchangeRate
  | [] => none
  | r :: rs =>
    match latestRate rs with
    | none => some r
    | some b => if b.timestamp > r.timestamp then some b else some r

/-- Source `CurrencyService.get_exchange_rate`: raises (here `.error`) when either
    code is unknown; rate 1 for a same-currency pair; otherwise the most
    recent stored rate not after `at_time` (the latest rate overall when
    `at_time` is absent), or `none` when no rate matches. -/
def get_exchange_rate (db : DB) (from_code to_code : String) (at_time : Option Nat) :
    Except LedgerError (Option Amount) :=
  match get_by_code db from_code, get_by_code db to_code with
  | some from_currency, some to_currency =>
    if from_currency.id == to_currency.id then
      .ok (some 1)
    else
      let matching := db.exchange_rates.filter (fun r =>
        r.from_currency_id == from_currency.id && r.to_currency_id == to_currency.id &&
          match at_time with
          | some t => decide (r.timestamp ≤ t)
          | none => true)
      .ok ((latestRate matching).map (fun r => r.rate))
  | _, _ => .error .currencyNotFound

/-- Source `CurrencyService.convert_amount`: `amount * rate`, propagating a missing
    rate as `none`. -/
def convert_amount (db : DB) (amount : Amount) (from_code to_code : String)
    (at_time : Option Nat) : Except LedgerError (Option Amount) :=
  match get_exchange_rate db from_code to_code at_time with
  | .error e => .error e
  | .ok none => .ok none
  | .ok (some rate) => .ok (some (amount * rate))

/-- Source `TransactionService._convert_amount`: same-currency pass-through, else
    conversion at midnight of the transaction date (`today` stands for
    `datetime.now(timezone.utc).date()`); a missing rate raises
    `exchangeRateMissing`. -/
def tx_convert_amount (db : DB) (amount : Amount) (from_account to_account : Account)
    (transaction_date : Option Nat) (today : Nat) :
    Except LedgerError (Amount × Amount) :=
  if from_account.currency_id == to_account.currency_id then
    .ok (amount, amount)
  else
    match get_currency db from_account.currency_id, get_currency db to_account.currency_id with
    | some from_currency, some to_currency =>
      match convert_amount db amount from_currency.code to_currency.code
          (some (dateStartTime (transaction_date.getD today))) with
      | .error e => .error e
      | .ok none => .error .exchangeRateMissing
      | .ok (some converted) => .ok (amount, converted)
    | _, _ => .error .currencyNotFound

/-- Stand-in for the auto-generated description `create_transfer` builds (the
    source interpolates formatted amounts and currency symbols; only the fact
    that some string is produced matters to every claim). -/
def transferDescription (from_account to_account : Account) : String :=
  "Transfer from " ++ from_account.name ++ " to " ++ to_account.name

/-- Source `TransactionService.create_transfer`: resolve both accounts, convert the
    amount when currencies differ, append the transaction with a debit leg on
    the source and a credit leg on the destination, adjust both stored balance
    columns, and commit.  The credit leg records rate `to_amount / from_amount`
    when the two amounts differ, else 1. -/
def create_transfer (db : DB) (from_account_id to_account_id : Nat) (amount : Amount)
    (description : Option String) (transaction_date : Option Nat) (today : Nat) :
    Except LedgerError (DB × Transaction) :=
  match get_account db from_account_id, get_account db to_account_id with
  | some from_account, some to_account =>
    let tx_date := transaction_date.getD today
    match tx_convert_amount db amount from_account to_account transaction_date today with
    | .error e => .error e
    | .ok (from_amount, to_amount) =>
      let transaction : Transaction :=
        { id := db.next_transaction_id
          description := description.getD (transferDescription from_account to_account)
          date := tx_date
          currency_id := from_account.currency_id }
      let debit_leg : TransactionLeg :=
        { id := db.next_leg_id
          transaction_id := transaction.id
          account_id := from_account_id
          pot_id := none
          currency_id := from_account.currency_id
          debit := some from_amount
          credit := none
          exchange_rate := 1 }
      let credit_leg : TransactionLeg :=
        { id := db.next_leg_id + 1
          transaction_id := transaction.id
          account_id := to_account_id
          pot_id := none
          currency_id := to_account.currency_id
          debit := none
          credit := some to_amount
          exchange_rate := if from_amount ≠ to_amount then to_amount / from_amount else 1 }
      let accounts1 := db.accounts.map (fun a =>
        if a.id == from_account_id then { a with balance := a.balance - from_amount } else a)
      let accounts2 := accounts1.map (fun a =>
        if a.id == to_account_id then { a with balance := a.balance + to_amount } else a)
      .ok ({ db with
              accounts := accounts2
              transactions := db.transactions ++ [transaction]
              legs := db.legs ++ [debit_leg, credit_leg]
              next_transaction_id := db.next_transaction_id + 1
              next_leg_id := db.next_leg_id + 2 }, transaction)
  | _, _ => .error .accountNotFound

/-- Python `sum((leg.get("debit", 0) or 0) for leg in legs)`. -/
def sum_debits (legs : List LegInput) : Amount :=
  (legs.map (fun leg => leg.debit.getD 0)).sum

/-- Python `sum((leg.get("credit", 0) or 0) for leg in legs)`. -/
def sum_credits (legs : List LegInput) : Amount :=
  (legs.map (fun leg => leg.credit.getD 0)).sum

/-- The exchange-rate block inside the leg loop of
    `create_multi_leg_transaction`: 1 when the leg account shares the first
    account currency, else the stored rate at `rate_time`, raising when
    absent. -/
def leg_rate (db : DB) (first_account account : Account) (rate_time : Nat) :
    Except LedgerError Amount :=
  if account.currency_id == first_account.currency_id then .ok 1
  else
    match get_currency db first_account.currency_id, get_currency db account.currency_id with
    | some base_currency, some leg_currency =>
      match get_exchange_rate db base_currency.code leg_currency.code (some rate_time) with
      | .error e => .error e
      | .ok none => .error .exchangeRateMissing
      | .ok (some r) => .ok r
    | _, _ => .error .currencyNotFound

/-- The leg-construction loop of `create_multi_leg_transaction`: resolve each
    leg account, compute its rate via `leg_rate`, and build the row with the
    debit/credit values exactly as given.  `next_id` models primary-key
    assignment. -/
def build_legs (db : DB) (first_account : Account) (txid rate_time : Nat) :
    Nat → List LegInput → Except LedgerError (List TransactionLeg)
  | _, [] => .ok []
  | next_id, leg :: rest =>
    match get_account db leg.account_id with
    | none => .error .accountNotFound
    | some account =>
      match leg_rate db first_account account rate_time with
      | .error e => .error e
      | .ok exchange_rate =>
        match build_legs db first_account txid rate_time (next_id + 1) rest with
        | .error e => .error e
        | .ok built =>
          .ok ({ id := next_id
                 transaction_id := txid
                 account_id := leg.account_id
                 pot_id := leg.pot_id
                 currency_id := account.currency_id
                 debit := leg.debit
                 credit := leg.credit
                 exchange_rate := exchange_rate } :: built)

/-- Source `TransactionService.create_multi_leg_transaction`.  The source validates
    only that the raw debit and credit totals agree (`abs(td - tc) > 0` is
    `td ≠ tc`); there is no leg-count check and no pot-ownership check.  The
    empty list passes the balance check and then fails at `legs[0]` with an
    `IndexError`, before anything is added to the session. -/
def create_multi_leg_transaction (db : DB) (legs : List LegInput) (description : String)
    (transaction_date : Option Nat) (today : Nat) : Except LedgerError (DB × Transaction) :=
  if sum_debits legs ≠ sum_credits legs then .error .unbalancedLegs
  else
    match legs.head? with
    | none => .error .indexError
    | some first_leg =>
      match get_account db first_leg.account_id with
      | none => .error .accountNotFound
      | some first_account =>
        let transaction : Transaction :=
          { id := db.next_transaction_id
            description := description
            date := transaction_date.getD today
            currency_id := first_account.currency_id }
        match build_legs db first_account transaction.id
            (dateStartTime (transaction_date.getD today)) db.next_leg_id legs with
        | .error e => .error e
        | .ok built =>
          .ok ({ db with
                  transactions := db.transactions ++ [transaction]
                  legs := db.legs ++ built
                  next_transaction_id := db.next_transaction_id + 1
                  next_leg_id := db.next_leg_id + built.length }, transaction)

/-- Per-leg contribution `credit - debit`.  The source guards each side with
    truthiness (`if leg.credit:`), which skips both `None` and zero; skipping
    a zero adds zero, so the computed balance is identical. -/
def legEffect (leg : TransactionLeg) : Amount :=
  (match leg.credit with | some c => c | none => 0)
    - (match leg.debit with | some d => d | none => 0)

/-- A leg row survives `join(Transaction)` with the optional date filter: its
    transaction exists and, when `as_of_date` is given, has `date ≤ as_of_date`. -/
def legInRange (transactions : List Transaction) (leg : TransactionLeg)
    (as_of_date : Option Nat) : Bool :=
  transactions.any (fun t =>
    t.id == leg.transaction_id &&
      match as_of_date with
      | some d => decide (t.date ≤ d)
      | none => true)

/-- Source `TransactionService.get_account_balance`: fold `credit - debit` over every
    leg of the account whose transaction passes the date filter. -/
def get_account_balance (db : DB) (account_id : Nat) (as_of_date : Option Nat) : Amount :=
  ((db.legs.filter (fun l =>
    l.account_id == account_id && legInRange db.transactions l as_of_date)).map legEffect).sum

/-- Source `TransactionService.get_pot_balance`: the same fold restricted to legs
    tagged with the pot. -/
def get_pot_balance (db : DB) (pot_id : Nat) (as_of_date : Option Nat) : Amount :=
  ((db.legs.filter (fun l =>
    l.pot_id == some pot_id && legInRange db.transactions l as_of_date)).map legEffect).sum

/-- Source `TransactionService._validate_pot_ownership`. -/
def validate_pot_ownership (db : DB) (pot_id account_id : Nat) : Except LedgerError Unit :=
  match get_pot db pot_id with
  | none => .error .potNotFound
  | some pot =>
    if pot.account_id == account_id then .ok () else .error .potOwnershipMismatch

/-- Source `TransactionService.transfer_to_pot`: validate ownership, require
    `get_account_balance ≥ amount`, then a two-leg transaction debiting the
    account and crediting the account with the pot tag. -/
def transfer_to_pot (db : DB) (account_id pot_id : Nat) (amount : Amount)
    (description : Option String) (transaction_date : Option Nat) (today : Nat) :
    Except LedgerError (DB × Transaction) :=
  match validate_pot_ownership db pot_id account_id with
  | .error e => .error e
  | .ok _ =>
    if get_account_balance db account_id none < amount then .error .insufficientFunds
    else
      create_multi_leg_transaction db
        [ { account_id := account_id, debit := some amount },
          { account_id := account_id, pot_id := some pot_id, credit := some amount } ]
        (description.getD "Transfer to pot") transaction_date today

/-- Source `TransactionService.transfer_from_pot`: mirror of `transfer_to_pot`,
    requiring `get_pot_balance ≥ amount`. -/
def transfer_from_pot (db : DB) (account_id pot_id : Nat) (amount : Amount)
    (description : Option String) (transaction_date : Option Nat) (today : Nat) :
    Except LedgerError (DB × Transaction) :=
  match validate_pot_ownership db pot_id account_id with
  | .error e => .error e
  | .ok _ =>
    if get_pot_balance db pot_id none < amount then .error .insufficientFunds
    else
      create_multi_leg_transaction db
        [ { account_id := account_id, pot_id := some pot_id, debit := some amount },
          { account_id := account_id, credit := some amount } ]
        (description.getD "Transfer from pot") transaction_date today

/-- Source `TransactionService.transfer_between_pots`. -/
def transfer_between_pots (db : DB) (account_id from_pot_id to_pot_id : Nat) (amount : Amount)
    (description : Option String) (transaction_date : Option Nat) (today : Nat) :
    Except LedgerError (DB × Transaction) :=
  match validate_pot_ownership db from_pot_id account_id with
  | .error e => .error e
  | .ok _ =>
    match validate_pot_ownership db to_pot_id account_id with
    | .error e => .error e
    | .ok _ =>
      if get_pot_balance db from_pot_id none < amount then .error .insufficientFunds
      else
        create_multi_leg_transaction db
          [ { account_id := account_id, pot_id := some from_pot_id, debit := some amount },
            { account_id := account_id, pot_id := some to_pot_id, credit := some amount } ]
          (description.getD "Transfer between pots") transaction_date today

/-- Ledger-wide sum of leg-derived account balances — the quantity of spec
    property §8.1. -/
def totalBalance (db : DB) : Amount :=
  (db.accounts.map (fun a => get_account_balance db a.id none)).sum

/-- The valid `AccountType` strings (src/models/accounts.py). -/
def accountTypeStrings : List String :=
  ["current", "savings", "credit_card", "loan", "mortgage", "crypto"]

/-- Source `AccountService.create_account`.  The body builds a kwargs dict
    whose values are evaluated in source order: the `type` value
    `AccountType(account_type)` raises `ValueError` for an unknown type
    string, and the `currency` value `Currency(currency_code)` passes a
    positional argument to the keyword-only SQLAlchemy declarative
    constructor (`DeclarativeBase` in src/database.py) and therefore raises
    `TypeError` on every call.  The `Account` constructor is never reached:
    the function never returns, and the session is never touched — no `add`,
    no `commit`. -/
def create_account (db : DB) (name account_type currency_code : String) :
    Except LedgerError (DB × Account) :=
  if account_type ∈ accountTypeStrings then .error .typeError
  else .error .invalidAccountType

/-- Source `AccountService.get_balance`: account must exist, then delegate to
    `get_account_balance`. -/
def account_get_balance (db : DB) (account_id : Nat) (as_of_date : Option Nat) :
    Except LedgerError Amount :=
  match get_account db account_id with
  | none => .error .accountNotFound
  | some _ => .ok (get_account_balance db account_id as_of_date)

/-- Source `AccountService.create_pot`.  The source commits three times on the funded
    path: after adding the pot row, inside `create_multi_leg_transaction`, and
    after setting `current_amount`; the returned list collects the committed
    states in order, the last being the final state.  The inner
    `create_multi_leg_transaction` cannot fail on this path (its legs balance,
    the account exists, and both legs share its currency), so the propagated
    `.error` branch is unreachable. -/
def create_pot (db : DB) (account_id : Nat) (name : String)
    (target_amount initial_amount : Amount) (today : Nat) :
    Except LedgerError (List DB × Pot) :=
  match get_account db account_id with
  | none => .error .accountNotFound
  | some _ =>
    if 0 < initial_amount ∧ get_account_balance db account_id none < initial_amount then
      .error .insufficientFunds
    else
      let pot : Pot :=
        { id := db.next_pot_id
          name := name
          target_amount := target_amount
          current_amount := 0
          is_active := true
          account_id := account_id }
      let db1 : DB := { db with pots := db.pots ++ [pot], next_pot_id := db.next_pot_id + 1 }
      if 0 < initial_amount then
        match create_multi_leg_transaction db1
            [ { account_id := account_id, debit := some initial_amount },
              { account_id := account_id, pot_id := some pot.id, credit := some initial_amount } ]
            ("Initial funding for pot: " ++ name) none today with
        | .error e => .error e
        | .ok (db2, _) =>
          let db3 : DB := { db2 with pots := db2.pots.map (fun p =>
            if p.id == pot.id then { p with current_amount := initial_amount } else p) }
          .ok ([db1, db2, db3], { pot with current_amount := initial_amount })
      else .ok ([db1], pot)

/-! ### Concrete stores used by counterexamples and witnesses -/

/-- GBP currency row. -/
def gbp : Currency :=
  { id := 1, code := "GBP", name := "Pound", symbol := "P", decimals := 2, is_active := true }

/-- USD currency row. -/
def usd : Currency :=
  { id := 2, code := "USD", name := "Dollar", symbol := "D", decimals := 2, is_active := true }

/-- A store with a GBP account (id 1), a USD account (id 2), no legs, and a
    stored GBP to USD rate of 2. -/
def dbCross : DB :=
  { currencies := [gbp, usd]
    exchange_rates := [{ from_currency_id := 1, to_currency_id := 2, rate := 2, timestamp := 0 }]
    accounts :=
      [ { id := 1, name := "Checking", currency_id := 1, balance := 0, is_external := false },
        { id := 2, name := "Savings", currency_id := 2, balance := 0, is_external := false } ]
    pots := []
    transactions := []
    legs := []
    next_transaction_id := 1
    next_leg_id := 1
    next_pot_id := 1 }

/-- A store with one GBP account (id 1, stored balance 10) funded by a single
    committed credit leg of 10, and one pot (id 1) owned by it. -/
def dbPot : DB :=
  { currencies := [gbp]
    exchange_rates := []
    accounts :=
      [ { id := 1, name := "Checking", currency_id := 1, balance := 10, is_external := false } ]
    pots :=
      [ { id := 1, name := "Holiday", target_amount := 0, current_amount := 0,
          is_active := true, account_id := 1 } ]
    transactions := [{ id := 1, description := "Seed", date := 0, currency_id := 1 }]
    legs :=
      [ { id := 1, transaction_id := 1, account_id := 1, pot_id := none, currency_id := 1,
          debit := none, credit := some 10, exchange_rate := 1 } ]
    next_transaction_id := 2
    next_leg_id := 2
    next_pot_id := 2 }

/-- Like `dbPot` but with a second account (id 2, GBP) and the pot owned by
    account 2 instead, and no seed legs. -/
def dbForeignPot : DB :=
  { currencies := [gbp]
    exchange_rates := []
    accounts :=
      [ { id := 1, name := "Checking", currency_id := 1, balance := 0, is_external := false },
        { id := 2, name := "Other", currency_id := 1, balance := 0, is_external := false } ]
    pots :=
      [ { id := 7, name := "Holiday", target_amount := 0, current_amount := 0,
          is_active := true, account_id := 2 } ]
    transactions := []
    legs := []
    next_transaction_id := 1
    next_leg_id := 1
    next_pot_id := 8 }

/-- Like `dbPot` but with no pot yet (`create_pot` will create pot 1). -/
def dbFund : DB :=
  { currencies := [gbp]
    exchange_rates := []
    accounts :=
      [ { id := 1, name := "Checking", currency_id := 1, balance := 10, is_external := false } ]
    pots := []
    transactions := [{ id := 1, description := "Seed", date := 0, currency_id := 1 }]
    legs :=
      [ { id := 1, transaction_id := 1, account_id := 1, pot_id := none, currency_id := 1,
          debit := none, credit := some 10, exchange_rate := 1 } ]
    next_transaction_id := 2
    next_leg_id := 2
    next_pot_id := 1 }

/-- Two GBP accounts, no rates, no legs. -/
def dbTwoGBP : DB :=
  { currencies := [gbp]
    exchange_rates := []
    accounts :=
      [ { id := 1, name := "Checking", currency_id := 1, balance := 0, is_external := false },
        { id := 2, name := "Savings", currency_id := 1, balance := 0, is_external := false } ]
    pots := []
    transactions := []
    legs := []
    next_transaction_id := 1
    next_leg_id := 1
    next_pot_id := 1 }

/-- A GBP account and a USD account with no stored exchange rates. -/
def dbNoRate : DB :=
  { currencies := [gbp, usd]
    exchange_rates := []
    accounts :=
      [ { id := 1, name := "Checking", currency_id := 1, balance := 0, is_external := false },
        { id := 2, name := "Savings", currency_id := 2, balance := 0, is_external := false } ]
    pots := []
    transactions := []
    legs := []
    next_transaction_id := 1
    next_leg_id := 1
    next_pot_id := 1 }

/-- Bool check that every stored account balance column matches the
    leg-derived balance. -/
def accountCachesMatch (db : DB) : Bool :=
  db.accounts.all (fun a => a.balance == get_account_balance db a.id none)

/-- Bool check that every stored pot `current_amount` matches the leg-derived
    pot balance. -/
def potCachesMatch (db : DB) : Bool :=
  db.pots.all (fun p => p.current_amount == get_pot_balance db p.id none)

/-- The four input-determined fields of a built leg row. -/
def legQuad (l : TransactionLeg) : Nat × Option Nat × Option Amount × Option Amount :=
  (l.account_id, l.pot_id, l.debit, l.credit)

/-- The four fields of a leg input. -/
def inputQuad (leg : LegInput) : Nat × Option Nat × Option Amount × Option Amount :=
  (leg.account_id, leg.pot_id, leg.debit, leg.credit)

/-- Effect of a leg computed from its quad. -/
def quadEffect (q : Nat × Option Nat × Option Amount × Option Amount) : Amount :=
  q.2.2.2.getD 0 - q.2.2.1.getD 0

/-- Every pot-tagged leg in the store references a pot (as resolved by the
    primary-key lookup the validator uses) owned by the leg account. -/
def PotLegsOwned (db : DB) : Prop :=
  ∀ l ∈ db.legs, ∀ pid, l.pot_id = some pid →
    ∀ p, get_pot db pid = some p → p.account_id = l.account_id

/-! ### Theorems -/

/-- Evaluation fact used when running operations on the concrete stores. -/
theorem upper_GBP : upper "GBP" = "GBP" := by decide

/-- Evaluation fact used when running operations on the concrete stores. -/
theorem upper_USD : upper "USD" = "USD" := by decide

/-! ### General lemmas about the balance fold -/

/-- Pointwise sums split. -/
theorem sum_map_add {α : Type} (l : List α) (f g : α → Amount) :
    (l.map (fun x => f x + g x)).sum = (l.map f).sum + (l.map g).sum := by
  induction l with
  | nil => simp
  | cons x xs ih => simp only [List.map_cons, List.sum_cons, ih]; ring

/-- Pointwise differences split. -/
theorem sum_map_sub {α : Type} (l : List α) (f g : α → Amount) :
    (l.map (fun x => f x - g x)).sum = (l.map f).sum - (l.map g).sum := by
  induction l with
  | nil => simp
  | cons x xs ih => simp only [List.map_cons, List.sum_cons, ih]; ring

/-- Appending one transaction row to the table changes the join test by one
    disjunct. -/
theorem legInRange_append (ts : List Transaction) (tx : Transaction) (l : TransactionLeg) :
    legInRange (ts ++ [tx]) l none
      = (legInRange ts l none || (tx.id == l.transaction_id)) := by
  simp [legInRange, List.any_append]

/-- A leg whose transaction row is present passes the undated join test. -/
theorem legInRange_of_mem (ts : List Transaction) (tx : Transaction) (l : TransactionLeg)
    (hmem : tx ∈ ts) (hid : l.transaction_id = tx.id) : legInRange ts l none = true := by
  simp only [legInRange, List.any_eq_true]
  exact ⟨tx, hmem, by simp [hid]⟩

/-- Splitting the balance fold over appended legs and an appended transaction:
    old legs never reference the new transaction, new legs always do. -/
theorem legSum_append (ts : List Transaction) (tx : Transaction)
    (oldlegs newlegs : List TransactionLeg) (p : TransactionLeg → Bool)
    (hfresh : ∀ l ∈ oldlegs, l.transaction_id ≠ tx.id)
    (hnew : ∀ l ∈ newlegs, l.transaction_id = tx.id) :
    (((oldlegs ++ newlegs).filter
        (fun l => p l && legInRange (ts ++ [tx]) l none)).map legEffect).sum
      = ((oldlegs.filter (fun l => p l && legInRange ts l none)).map legEffect).sum
        + ((newlegs.filter p).map legEffect).sum := by
  rw [List.filter_append, List.map_append, List.sum_append]
  have hold : oldlegs.filter (fun l => p l && legInRange (ts ++ [tx]) l none)
      = oldlegs.filter (fun l => p l && legInRange ts l none) := by
    apply List.filter_congr
    intro l hl
    have h1 : (tx.id == l.transaction_id) = false := by
      simp only [beq_eq_false_iff_ne, ne_eq]
      exact fun h => hfresh l hl h.symm
    rw [legInRange_append, h1, Bool.or_false]
  have hnewf : newlegs.filter (fun l => p l && legInRange (ts ++ [tx]) l none)
      = newlegs.filter p := by
    apply List.filter_congr
    intro l hl
    have h1 : legInRange (ts ++ [tx]) l none = true :=
      legInRange_of_mem _ tx l (by simp) (hnew l hl)
    rw [h1, Bool.and_true]
  rw [hold, hnewf]

/-- Account-balance version of `legSum_append`, stated against any successor
    store whose tables extend the old ones. -/
theorem get_account_balance_extend (db db' : DB) (tx : Transaction)
    (newlegs : List TransactionLeg)
    (ht : db'.transactions = db.transactions ++ [tx])
    (hl : db'.legs = db.legs ++ newlegs)
    (hfresh : ∀ l ∈ db.legs, l.transaction_id ≠ tx.id)
    (hnew : ∀ l ∈ newlegs, l.transaction_id = tx.id) (aid : Nat) :
    get_account_balance db' aid none
      = get_account_balance db aid none
        + ((newlegs.filter (fun l => l.account_id == aid)).map legEffect).sum := by
  unfold get_account_balance
  rw [ht, hl]
  exact legSum_append db.transactions tx db.legs newlegs
    (fun l => l.account_id == aid) hfresh hnew

/-- Pot-balance version of `legSum_append`. -/
theorem get_pot_balance_extend (db db' : DB) (tx : Transaction)
    (newlegs : List TransactionLeg)
    (ht : db'.transactions = db.transactions ++ [tx])
    (hl : db'.legs = db.legs ++ newlegs)
    (hfresh : ∀ l ∈ db.legs, l.transaction_id ≠ tx.id)
    (hnew : ∀ l ∈ newlegs, l.transaction_id = tx.id) (pid : Nat) :
    get_pot_balance db' pid none
      = get_pot_balance db pid none
        + ((newlegs.filter (fun l => l.pot_id == some pid)).map legEffect).sum := by
  unfold get_pot_balance
  rw [ht, hl]
  exact legSum_append db.transactions tx db.legs newlegs
    (fun l => l.pot_id == some pid) hfresh hnew

/-- Summing an id-indicator over a list of accounts with no matching id. -/
theorem sum_indicator_not_mem (accounts : List Account) (aid : Nat) (c : Amount)
    (h : aid ∉ accounts.map (fun a => a.id)) :
    (accounts.map (fun a => if aid == a.id then c else 0)).sum = 0 := by
  induction accounts with
  | nil => simp
  | cons a rest ih =>
    simp only [List.map_cons, List.mem_cons, not_or] at h
    simp only [List.map_cons, List.sum_cons]
    rw [if_neg (by simpa using h.1), ih h.2, add_zero]

/-- Summing an id-indicator over a duplicate-free account list containing the
    id yields a single copy. -/
theorem sum_indicator_mem (accounts : List Account) (aid : Nat) (c : Amount)
    (hnd : (accounts.map (fun a => a.id)).Nodup)
    (hmem : aid ∈ accounts.map (fun a => a.id)) :
    (accounts.map (fun a => if aid == a.id then c else 0)).sum = c := by
  induction accounts with
  | nil => simp at hmem
  | cons a rest ih =>
    simp only [List.map_cons, List.nodup_cons] at hnd
    simp only [List.map_cons, List.mem_cons] at hmem
    simp only [List.map_cons, List.sum_cons]
    rcases hmem with h | h
    · rw [if_pos (by simpa using h), sum_indicator_not_mem rest aid c (h ▸ hnd.1), add_zero]
    · have hne : aid ≠ a.id := by
        intro he
        exact hnd.1 (he ▸ h)
      rw [if_neg (by simpa using hne), ih hnd.2 h, zero_add]

/-- Distributing a per-account filtered leg sum over a duplicate-free account
    list whose ids cover every leg gives the plain leg sum. -/
theorem sum_filter_by_account (accounts : List Account) (newlegs : List TransactionLeg)
    (hnd : (accounts.map (fun a => a.id)).Nodup)
    (hmem : ∀ l ∈ newlegs, l.account_id ∈ accounts.map (fun a => a.id)) :
    (accounts.map (fun a =>
        ((newlegs.filter (fun l => l.account_id == a.id)).map legEffect).sum)).sum
      = (newlegs.map legEffect).sum := by
  induction newlegs with
  | nil => simp
  | cons l rest ih =>
    have hsplit : ∀ a : Account,
        ((((l :: rest).filter (fun x => x.account_id == a.id)).map legEffect).sum : Amount)
          = (if l.account_id == a.id then legEffect l else 0)
            + ((rest.filter (fun x => x.account_id == a.id)).map legEffect).sum := by
      intro a
      rw [List.filter_cons]
      by_cases h : (l.account_id == a.id) = true
      · simp [h]
      · simp [h]
    calc (accounts.map (fun a =>
            (((l :: rest).filter (fun x => x.account_id == a.id)).map legEffect).sum)).sum
        = (accounts.map (fun a =>
            (if l.account_id == a.id then legEffect l else 0)
              + ((rest.filter (fun x => x.account_id == a.id)).map legEffect).sum)).sum := by
          congr 1
          exact List.map_congr_left (fun a _ => hsplit a)
      _ = (accounts.map (fun a => if l.account_id == a.id then legEffect l else 0)).sum
            + (accounts.map (fun a =>
                ((rest.filter (fun x => x.account_id == a.id)).map legEffect).sum)).sum :=
          sum_map_add accounts _ _
      _ = legEffect l + (rest.map legEffect).sum := by
          rw [sum_indicator_mem accounts l.account_id (legEffect l) hnd
              (hmem l (List.mem_cons_self l rest)),
            ih (fun x hx => hmem x (List.mem_cons_of_mem l hx))]
      _ = ((l :: rest).map legEffect).sum := by simp

/-! ### Inversion lemmas for the write paths -/

/-- Unpacking a successful account lookup. -/
theorem get_account_some (db : DB) (x : Nat) (a : Account)
    (h : get_account db x = some a) : a ∈ db.accounts ∧ a.id = x := by
  unfold get_account at h
  exact ⟨List.mem_of_find?_eq_some h, by simpa using List.find?_some h⟩

/-- Unpacking a successful pot lookup. -/
theorem get_pot_some (db : DB) (x : Nat) (p : Pot)
    (h : get_pot db x = some p) : p ∈ db.pots ∧ p.id = x := by
  unfold get_pot at h
  exact ⟨List.mem_of_find?_eq_some h, by simpa using List.find?_some h⟩

/-- Lookup `get_exchange_rate` fails only on an unknown currency code. -/
theorem get_exchange_rate_error (db : DB) (from_code to_code : String)
    (at_time : Option Nat) (e : LedgerError)
    (h : get_exchange_rate db from_code to_code at_time = .error e) :
    e = .currencyNotFound := by
  simp only [get_exchange_rate] at h
  split at h
  · split at h <;> cases h
  · cases h
    rfl

/-- What a successful leg-construction loop guarantees: the built rows carry
    the input fields verbatim, all reference the new transaction, and each
    references an existing account row. -/
theorem build_legs_ok (db : DB) (first_account : Account) (txid rate_time : Nat) :
    ∀ (inputs : List LegInput) (next_id : Nat) (built : List TransactionLeg),
      build_legs db first_account txid rate_time next_id inputs = .ok built →
      built.map legQuad = inputs.map inputQuad
        ∧ (∀ l ∈ built, l.transaction_id = txid)
        ∧ (∀ l ∈ built, ∃ a ∈ db.accounts, a.id = l.account_id) := by
  intro inputs
  induction inputs with
  | nil =>
    intro next_id built h
    simp only [build_legs] at h
    cases h
    simp
  | cons leg rest ih =>
    intro next_id built h
    simp only [build_legs] at h
    cases hacct : get_account db leg.account_id with
    | none => simp only [hacct] at h; cases h
    | some account =>
      simp only [hacct] at h
      cases hrate : leg_rate db first_account account rate_time with
      | error e => simp only [hrate] at h; cases h
      | ok exchange_rate =>
        simp only [hrate] at h
        cases hrest : build_legs db first_account txid rate_time (next_id + 1) rest with
        | error e => simp only [hrest] at h; cases h
        | ok builtRest =>
          simp only [hrest] at h
          cases h
          obtain ⟨hq, htx, hmem⟩ := ih (next_id + 1) builtRest hrest
          refine ⟨?_, ?_, ?_⟩
          · simp [legQuad, inputQuad, hq]
          · intro l hl
            rcases List.mem_cons.mp hl with h | h
            · rw [h]
            · exact htx l h
          · intro l hl
            rcases List.mem_cons.mp hl with h | h
            · obtain ⟨hmem2, hid2⟩ := get_account_some db leg.account_id account hacct
              exact ⟨account, hmem2, by rw [h]; exact hid2⟩
            · exact hmem l h

/-- A successful `build_legs` run builds exactly one row per input. -/
theorem build_legs_length (db : DB) (first_account : Account) (txid rate_time : Nat)
    (inputs : List LegInput) (next_id : Nat) (built : List TransactionLeg)
    (h : build_legs db first_account txid rate_time next_id inputs = .ok built) :
    built.length = inputs.length := by
  have hq := (build_legs_ok db first_account txid rate_time inputs next_id built h).1
  have := congrArg List.length hq
  simpa using this

/-- The rate block fails only with a currency lookup failure or a missing
    rate. -/
theorem leg_rate_error (db : DB) (first_account account : Account) (rate_time : Nat)
    (e : LedgerError) (h : leg_rate db first_account account rate_time = .error e) :
    e = .currencyNotFound ∨ e = .exchangeRateMissing := by
  simp only [leg_rate] at h
  by_cases hc : (account.currency_id == first_account.currency_id) = true
  · rw [if_pos hc] at h; cases h
  · rw [if_neg hc] at h
    cases h1 : get_currency db first_account.currency_id with
    | none => simp only [h1] at h; cases h; exact Or.inl rfl
    | some base_currency =>
      simp only [h1] at h
      cases h2 : get_currency db account.currency_id with
      | none => simp only [h2] at h; cases h; exact Or.inl rfl
      | some leg_currency =>
        simp only [h2] at h
        cases h3 : get_exchange_rate db base_currency.code leg_currency.code (some rate_time) with
        | error e2 =>
          simp only [h3] at h
          cases h
          exact Or.inl (get_exchange_rate_error db base_currency.code leg_currency.code
            (some rate_time) e h3)
        | ok opt =>
          cases opt with
          | none => simp only [h3] at h; cases h; exact Or.inr rfl
          | some r => simp only [h3] at h; cases h

/-- Loop `build_legs` only ever fails with a lookup or rate error, never with the
    balance error. -/
theorem build_legs_error (db : DB) (first_account : Account) (txid rate_time : Nat) :
    ∀ (inputs : List LegInput) (next_id : Nat) (e : LedgerError),
      build_legs db first_account txid rate_time next_id inputs = .error e →
      e = .accountNotFound ∨ e = .currencyNotFound ∨ e = .exchangeRateMissing := by
  intro inputs
  induction inputs with
  | nil => intro next_id e h; simp only [build_legs] at h; cases h
  | cons leg rest ih =>
    intro next_id e h
    simp only [build_legs] at h
    cases hacct : get_account db leg.account_id with
    | none =>
      simp only [hacct] at h
      cases h
      exact Or.inl rfl
    | some account =>
      simp only [hacct] at h
      cases hrate : leg_rate db first_account account rate_time with
      | error e2 =>
        simp only [hrate] at h
        cases h
        exact Or.inr (leg_rate_error db first_account account rate_time e hrate)
      | ok exchange_rate =>
        simp only [hrate] at h
        cases hrest : build_legs db first_account txid rate_time (next_id + 1) rest with
        | error e2 =>
          simp only [hrest] at h
          cases h
          exact ih (next_id + 1) e hrest
        | ok builtRest =>
          simp only [hrest] at h
          cases h

/-- Inversion of a successful `create_multi_leg_transaction`: the balance
    check passed, a first account was found, the leg loop succeeded, and the
    successor store extends the old one by exactly the new transaction and its
    rows. -/
theorem create_multi_leg_ok (db db' : DB) (legs : List LegInput) (description : String)
    (transaction_date : Option Nat) (today : Nat) (tx : Transaction)
    (h : create_multi_leg_transaction db legs description transaction_date today
        = .ok (db', tx)) :
    sum_debits legs = sum_credits legs
      ∧ ∃ first_leg first_account built,
          legs.head? = some first_leg
          ∧ get_account db first_leg.account_id = some first_account
          ∧ build_legs db first_account db.next_transaction_id
              (dateStartTime (transaction_date.getD today)) db.next_leg_id legs = .ok built
          ∧ tx = { id := db.next_transaction_id, description := description,
                   date := transaction_date.getD today,
                   currency_id := first_account.currency_id }
          ∧ db' = { db with
                     transactions := db.transactions ++ [tx],
                     legs := db.legs ++ built,
                     next_transaction_id := db.next_transaction_id + 1,
                     next_leg_id := db.next_leg_id + built.length } := by
  simp only [create_multi_leg_transaction] at h
  split at h
  · cases h
  · rename_i hbal
    cases hhead : legs.head? with
    | none => simp only [hhead] at h; cases h
    | some first_leg =>
      simp only [hhead] at h
      cases hacct : get_account db first_leg.account_id with
      | none => simp only [hacct] at h; cases h
      | some first_account =>
        simp only [hacct] at h
        cases hbuild : build_legs db first_account db.next_transaction_id
            (dateStartTime (transaction_date.getD today)) db.next_leg_id legs with
        | error e => simp only [hbuild] at h; cases h
        | ok built =>
          simp only [hbuild] at h
          cases h
          exact ⟨not_ne_iff.mp hbal, first_leg, first_account, built, rfl, hacct, hbuild,
            rfl, rfl⟩

/-- Factoring `legEffect` through `legQuad`. -/
theorem legEffect_eq_quadEffect (l : TransactionLeg) : legEffect l = quadEffect (legQuad l) := by
  unfold legEffect quadEffect legQuad
  cases l.credit <;> cases l.debit <;> simp

/-- Field form of a quad equation. -/
theorem legQuad_fields {l : TransactionLeg} {q : Nat × Option Nat × Option Amount × Option Amount}
    (h : legQuad l = q) :
    l.account_id = q.1 ∧ l.pot_id = q.2.1 ∧ l.debit = q.2.2.1 ∧ l.credit = q.2.2.2 := by
  subst h
  exact ⟨rfl, rfl, rfl, rfl⟩

/-- The total effect of the built rows is credits minus debits of the inputs. -/
theorem built_effect_sum (built : List TransactionLeg) (inputs : List LegInput)
    (hq : built.map legQuad = inputs.map inputQuad) :
    (built.map legEffect).sum = sum_credits inputs - sum_debits inputs := by
  have h1 : built.map legEffect = (built.map legQuad).map quadEffect := by
    rw [List.map_map]
    exact List.map_congr_left (fun l _ => legEffect_eq_quadEffect l)
  rw [h1, hq, List.map_map]
  have h2 : (inputs.map (quadEffect ∘ inputQuad)).sum
      = (inputs.map (fun leg => leg.credit.getD 0 - leg.debit.getD 0)).sum := by
    congr 1
  rw [h2, sum_map_sub]
  rfl

/-- A committed multi-leg transaction touches only the transaction and leg
    tables and the two counters. -/
theorem create_multi_leg_frame (db db' : DB) (legs : List LegInput) (description : String)
    (transaction_date : Option Nat) (today : Nat) (tx : Transaction)
    (h : create_multi_leg_transaction db legs description transaction_date today
        = .ok (db', tx)) :
    db'.accounts = db.accounts ∧ db'.pots = db.pots ∧ db'.currencies = db.currencies
      ∧ db'.exchange_rates = db.exchange_rates := by
  obtain ⟨-, first_leg, first_account, built, -, -, -, -, hdb⟩ :=
    create_multi_leg_ok db db' legs description transaction_date today tx h
  subst hdb
  exact ⟨rfl, rfl, rfl, rfl⟩

/-- Per-account balance change of a committed multi-leg transaction. -/
theorem create_multi_leg_balance (db db' : DB) (legs : List LegInput) (description : String)
    (transaction_date : Option Nat) (today : Nat) (tx : Transaction)
    (hfresh : ∀ l ∈ db.legs, l.transaction_id ≠ db.next_transaction_id)
    (h : create_multi_leg_transaction db legs description transaction_date today
        = .ok (db', tx)) :
    ∃ built : List TransactionLeg,
      built.map legQuad = legs.map inputQuad
        ∧ (∀ l ∈ built, ∃ a ∈ db.accounts, a.id = l.account_id)
        ∧ (∀ aid, get_account_balance db' aid none
            = get_account_balance db aid none
              + ((built.filter (fun l => l.account_id == aid)).map legEffect).sum)
        ∧ (∀ pid, get_pot_balance db' pid none
            = get_pot_balance db pid none
              + ((built.filter (fun l => l.pot_id == some pid)).map legEffect).sum) := by
  obtain ⟨hbal, first_leg, first_account, built, hhead, hacct, hbuild, htx, hdb⟩ :=
    create_multi_leg_ok db db' legs description transaction_date today tx h
  obtain ⟨hq, htxid, haccmem⟩ := build_legs_ok db first_account db.next_transaction_id
    (dateStartTime (transaction_date.getD today)) legs db.next_leg_id built hbuild
  have htxid2 : tx.id = db.next_transaction_id := by rw [htx]
  refine ⟨built, hq, haccmem, ?_, ?_⟩
  · intro aid
    apply get_account_balance_extend db db' tx built
    · rw [hdb]
    · rw [hdb]
    · intro l hl
      rw [htxid2]
      exact hfresh l hl
    · intro l hl
      rw [htxid2]
      exact htxid l hl
  · intro pid
    apply get_pot_balance_extend db db' tx built
    · rw [hdb]
    · rw [hdb]
    · intro l hl
      rw [htxid2]
      exact hfresh l hl
    · intro l hl
      rw [htxid2]
      exact htxid l hl

/-- A committed multi-leg transaction preserves the ledger-wide sum of
    leg-derived account balances. -/
theorem create_multi_leg_totalBalance (db db' : DB) (legs : List LegInput)
    (description : String) (transaction_date : Option Nat) (today : Nat) (tx : Transaction)
    (hnd : (db.accounts.map (fun a => a.id)).Nodup)
    (hfresh : ∀ l ∈ db.legs, l.transaction_id ≠ db.next_transaction_id)
    (h : create_multi_leg_transaction db legs description transaction_date today
        = .ok (db', tx)) :
    totalBalance db' = totalBalance db := by
  obtain ⟨hbal, -⟩ :=
    create_multi_leg_ok db db' legs description transaction_date today tx h
  obtain ⟨built, hq, haccmem, hdelta, -⟩ :=
    create_multi_leg_balance db db' legs description transaction_date today tx hfresh h
  have hacc : db'.accounts = db.accounts :=
    (create_multi_leg_frame db db' legs description transaction_date today tx h).1
  unfold totalBalance
  rw [hacc]
  have hmap : db.accounts.map (fun a => get_account_balance db' a.id none)
      = db.accounts.map (fun a => get_account_balance db a.id none
          + ((built.filter (fun l => l.account_id == a.id)).map legEffect).sum) :=
    List.map_congr_left (fun a _ => hdelta a.id)
  rw [hmap, sum_map_add]
  have hcover : ∀ l ∈ built, l.account_id ∈ db.accounts.map (fun a => a.id) := by
    intro l hl
    obtain ⟨a, ha, hid⟩ := haccmem l hl
    exact List.mem_map.mpr ⟨a, ha, hid⟩
  rw [sum_filter_by_account db.accounts built hnd hcover,
    built_effect_sum built legs hq, hbal]
  ring

/-- Filtered effect sum over a two-element leg list. -/
theorem pair_filter_sum (l1 l2 : TransactionLeg) (p : TransactionLeg → Bool) :
    (([l1, l2].filter p).map legEffect).sum
      = (if p l1 then legEffect l1 else 0) + (if p l2 then legEffect l2 else 0) := by
  by_cases h1 : p l1 = true <;> by_cases h2 : p l2 = true <;>
    simp [List.filter_cons, h1, h2]

/-- Inversion of a successful `create_transfer`: both accounts resolved, the
    conversion succeeded, and the successor store extends the old one by the
    transaction, its two legs, and the two balance-column updates. -/
theorem create_transfer_ok (db db' : DB) (fid tid : Nat) (amount : Amount)
    (description : Option String) (transaction_date : Option Nat) (today : Nat)
    (tx : Transaction)
    (h : create_transfer db fid tid amount description transaction_date today
        = .ok (db', tx)) :
    ∃ from_account to_account from_amount to_amount,
      get_account db fid = some from_account
      ∧ get_account db tid = some to_account
      ∧ tx_convert_amount db amount from_account to_account transaction_date today
          = .ok (from_amount, to_amount)
      ∧ tx = { id := db.next_transaction_id,
               description := description.getD (transferDescription from_account to_account),
               date := transaction_date.getD today,
               currency_id := from_account.currency_id }
      ∧ db' = { db with
                 accounts := (db.accounts.map (fun a =>
                     if a.id == fid then { a with balance := a.balance - from_amount }
                     else a)).map (fun a =>
                     if a.id == tid then { a with balance := a.balance + to_amount } else a)
                 transactions := db.transactions ++ [tx]
                 legs := db.legs ++
                   [ { id := db.next_leg_id
                       transaction_id := db.next_transaction_id
                       account_id := fid
                       pot_id := none
                       currency_id := from_account.currency_id
                       debit := some from_amount
                       credit := none
                       exchange_rate := 1 },
                     { id := db.next_leg_id + 1
                       transaction_id := db.next_transaction_id
                       account_id := tid
                       pot_id := none
                       currency_id := to_account.currency_id
                       debit := none
                       credit := some to_amount
                       exchange_rate :=
                         if from_amount ≠ to_amount then to_amount / from_amount else 1 } ]
                 next_transaction_id := db.next_transaction_id + 1
                 next_leg_id := db.next_leg_id + 2 } := by
  simp only [create_transfer] at h
  cases hfa : get_account db fid with
  | none => simp only [hfa] at h; cases h
  | some from_account =>
    simp only [hfa] at h
    cases hta : get_account db tid with
    | none => simp only [hta] at h; cases h
    | some to_account =>
      simp only [hta] at h
      cases hconv : tx_convert_amount db amount from_account to_account transaction_date today
          with
      | error e => simp only [hconv] at h; cases h
      | ok p =>
        obtain ⟨from_amount, to_amount⟩ := p
        simp only [hconv] at h
        cases h
        exact ⟨from_account, to_account, from_amount, to_amount, rfl, rfl, hconv, rfl, rfl⟩

/-- Same-currency conversion is the identity on both sides. -/
theorem tx_convert_same (db : DB) (amount : Amount) (from_account to_account : Account)
    (transaction_date : Option Nat) (today : Nat)
    (hc : from_account.currency_id = to_account.currency_id) :
    tx_convert_amount db amount from_account to_account transaction_date today
      = .ok (amount, amount) := by
  unfold tx_convert_amount
  rw [if_pos (by simpa using hc)]

/-- The source side of a successful conversion is always the given amount. -/
theorem tx_convert_from_amount (db : DB) (amount : Amount)
    (from_account to_account : Account) (transaction_date : Option Nat) (today : Nat)
    (from_amount to_amount : Amount)
    (h : tx_convert_amount db amount from_account to_account transaction_date today
        = .ok (from_amount, to_amount)) : from_amount = amount := by
  unfold tx_convert_amount at h
  split at h
  · cases h; rfl
  · split at h
    · rename_i from_currency to_currency
      split at h
      · cases h
      · cases h
      · cases h; rfl
    · cases h

/-- Updating balance columns never changes the id column. -/
theorem transfer_accounts_ids (accounts : List Account) (fid tid : Nat)
    (from_amount to_amount : Amount) :
    (((accounts.map (fun a =>
        if a.id == fid then { a with balance := a.balance - from_amount } else a)).map
          (fun a => if a.id == tid then { a with balance := a.balance + to_amount } else a)).map
            (fun a => a.id))
      = accounts.map (fun a => a.id) := by
  rw [List.map_map, List.map_map]
  apply List.map_congr_left
  intro a _
  by_cases h1 : (a.id == fid) = true <;> by_cases h2 : (a.id == tid) = true <;>
    simp [Function.comp, h1, h2]

/-- A successful same-currency `create_transfer` preserves the ledger-wide
    balance sum. -/
theorem create_transfer_totalBalance (db db' : DB) (fid tid : Nat) (amount : Amount)
    (description : Option String) (transaction_date : Option Nat) (today : Nat)
    (tx : Transaction) (from_account to_account : Account)
    (hnd : (db.accounts.map (fun a => a.id)).Nodup)
    (hfresh : ∀ l ∈ db.legs, l.transaction_id ≠ db.next_transaction_id)
    (hfa : get_account db fid = some from_account)
    (hta : get_account db tid = some to_account)
    (hc : from_account.currency_id = to_account.currency_id)
    (h : create_transfer db fid tid amount description transaction_date today
        = .ok (db', tx)) :
    totalBalance db' = totalBalance db := by
  obtain ⟨fa2, ta2, from_amount, to_amount, hfa2, hta2, hconv, htx, hdb⟩ :=
    create_transfer_ok db db' fid tid amount description transaction_date today tx h
  rw [hfa] at hfa2
  rw [hta] at hta2
  cases hfa2
  cases hta2
  rw [tx_convert_same db amount from_account to_account transaction_date today hc] at hconv
  cases hconv
  have htxid : tx.id = db.next_transaction_id := by rw [htx]
  set dleg : TransactionLeg :=
    { id := db.next_leg_id, transaction_id := db.next_transaction_id, account_id := fid,
      pot_id := none, currency_id := from_account.currency_id, debit := some amount,
      credit := none, exchange_rate := 1 } with hdleg
  set cleg : TransactionLeg :=
    { id := db.next_leg_id + 1, transaction_id := db.next_transaction_id, account_id := tid,
      pot_id := none, currency_id := to_account.currency_id, debit := none,
      credit := some amount,
      exchange_rate := if amount ≠ amount then amount / amount else 1 } with hcleg
  have hdelta : ∀ aid, get_account_balance db' aid none
      = get_account_balance db aid none
        + (([dleg, cleg].filter (fun l => l.account_id == aid)).map legEffect).sum := by
    intro aid
    apply get_account_balance_extend db db' tx [dleg, cleg]
    · rw [hdb]
    · rw [hdb]
    · intro l hl
      rw [htxid]
      exact hfresh l hl
    · intro l hl
      rw [htxid]
      rcases List.mem_cons.mp hl with h1 | h1
      · rw [h1]
      · rcases List.mem_cons.mp h1 with h2 | h2
        · rw [h2]
        · cases h2
  have hacc : db'.accounts = (db.accounts.map (fun a =>
      if a.id == fid then { a with balance := a.balance - amount } else a)).map
        (fun a => if a.id == tid then { a with balance := a.balance + amount } else a) := by
    rw [hdb]
  unfold totalBalance
  rw [hacc]
  have hids : ∀ (f : Nat → Amount),
      (((db.accounts.map (fun a =>
          if a.id == fid then { a with balance := a.balance - amount } else a)).map
            (fun a => if a.id == tid then { a with balance := a.balance + amount } else a)).map
              (fun a => f a.id)).sum
        = (db.accounts.map (fun a => f a.id)).sum := by
    intro f
    congr 1
    rw [List.map_map, List.map_map]
    apply List.map_congr_left
    intro a _
    by_cases h1 : (a.id == fid) = true <;> by_cases h2 : (a.id == tid) = true <;>
      simp [Function.comp, h1, h2]
  rw [hids (fun aid => get_account_balance db' aid none)]
  have hmap : db.accounts.map (fun a => get_account_balance db' a.id none)
      = db.accounts.map (fun a => get_account_balance db a.id none
          + (([dleg, cleg].filter (fun l => l.account_id == a.id)).map legEffect).sum) :=
    List.map_congr_left (fun a _ => hdelta a.id)
  rw [hmap, sum_map_add]
  have hcover : ∀ l ∈ [dleg, cleg], l.account_id ∈ db.accounts.map (fun a => a.id) := by
    intro l hl
    obtain ⟨hmemf, hidf⟩ := get_account_some db fid from_account hfa
    obtain ⟨hmemt, hidt⟩ := get_account_some db tid to_account hta
    rcases List.mem_cons.mp hl with h1 | h1
    · rw [h1]
      exact List.mem_map.mpr ⟨from_account, hmemf, hidf⟩
    · rcases List.mem_cons.mp h1 with h2 | h2
      · rw [h2]
        exact List.mem_map.mpr ⟨to_account, hmemt, hidt⟩
      · cases h2
  rw [sum_filter_by_account db.accounts [dleg, cleg] hnd hcover]
  have : ([dleg, cleg].map legEffect).sum = 0 := by
    simp [legEffect, hdleg, hcleg]
  rw [this, add_zero]

/-- Inversion of a successful `transfer_to_pot`: ownership validated, funds
    checked, and the two-leg transaction committed. -/
theorem transfer_to_pot_ok (db db' : DB) (account_id pot_id : Nat) (amount : Amount)
    (description : Option String) (transaction_date : Option Nat) (today : Nat)
    (tx : Transaction)
    (h : transfer_to_pot db account_id pot_id amount description transaction_date today
        = .ok (db', tx)) :
    (∃ pot, get_pot db pot_id = some pot ∧ pot.account_id = account_id)
      ∧ ¬ get_account_balance db account_id none < amount
      ∧ create_multi_leg_transaction db
          [ { account_id := account_id, debit := some amount },
            { account_id := account_id, pot_id := some pot_id, credit := some amount } ]
          (description.getD "Transfer to pot") transaction_date today = .ok (db', tx) := by
  simp only [transfer_to_pot, validate_pot_ownership] at h
  cases hpot : get_pot db pot_id with
  | none => simp only [hpot] at h; cases h
  | some pot =>
    simp only [hpot] at h
    by_cases hown : (pot.account_id == account_id) = true
    · rw [if_pos hown] at h
      by_cases hfunds : get_account_balance db account_id none < amount
      · rw [if_pos hfunds] at h; cases h
      · rw [if_neg hfunds] at h
        exact ⟨⟨pot, rfl, by simpa using hown⟩, hfunds, h⟩
    · rw [if_neg hown] at h; cases h

/-- Inversion of a successful `transfer_from_pot`. -/
theorem transfer_from_pot_ok (db db' : DB) (account_id pot_id : Nat) (amount : Amount)
    (description : Option String) (transaction_date : Option Nat) (today : Nat)
    (tx : Transaction)
    (h : transfer_from_pot db account_id pot_id amount description transaction_date today
        = .ok (db', tx)) :
    (∃ pot, get_pot db pot_id = some pot ∧ pot.account_id = account_id)
      ∧ ¬ get_pot_balance db pot_id none < amount
      ∧ create_multi_leg_transaction db
          [ { account_id := account_id, pot_id := some pot_id, debit := some amount },
            { account_id := account_id, credit := some amount } ]
          (description.getD "Transfer from pot") transaction_date today = .ok (db', tx) := by
  simp only [transfer_from_pot, validate_pot_ownership] at h
  cases hpot : get_pot db pot_id with
  | none => simp only [hpot] at h; cases h
  | some pot =>
    simp only [hpot] at h
    by_cases hown : (pot.account_id == account_id) = true
    · rw [if_pos hown] at h
      by_cases hfunds : get_pot_balance db pot_id none < amount
      · rw [if_pos hfunds] at h; cases h
      · rw [if_neg hfunds] at h
        exact ⟨⟨pot, rfl, by simpa using hown⟩, hfunds, h⟩
    · rw [if_neg hown] at h; cases h

/-- Inversion of a successful `transfer_between_pots`. -/
theorem transfer_between_pots_ok (db db' : DB) (account_id from_pot_id to_pot_id : Nat)
    (amount : Amount) (description : Option String) (transaction_date : Option Nat)
    (today : Nat) (tx : Transaction)
    (h : transfer_between_pots db account_id from_pot_id to_pot_id amount description
        transaction_date today = .ok (db', tx)) :
    (∃ pot, get_pot db from_pot_id = some pot ∧ pot.account_id = account_id)
      ∧ (∃ pot, get_pot db to_pot_id = some pot ∧ pot.account_id = account_id)
      ∧ ¬ get_pot_balance db from_pot_id none < amount
      ∧ create_multi_leg_transaction db
          [ { account_id := account_id, pot_id := some from_pot_id, debit := some amount },
            { account_id := account_id, pot_id := some to_pot_id, credit := some amount } ]
          (description.getD "Transfer between pots") transaction_date today
          = .ok (db', tx) := by
  simp only [transfer_between_pots, validate_pot_ownership] at h
  cases hpot : get_pot db from_pot_id with
  | none => simp only [hpot] at h; cases h
  | some from_pot =>
    simp only [hpot] at h
    by_cases hown : (from_pot.account_id == account_id) = true
    · rw [if_pos hown] at h
      cases hpot2 : get_pot db to_pot_id with
      | none => simp only [hpot2] at h; cases h
      | some to_pot =>
        simp only [hpot2] at h
        by_cases hown2 : (to_pot.account_id == account_id) = true
        · rw [if_pos hown2] at h
          by_cases hfunds : get_pot_balance db from_pot_id none < amount
          · rw [if_pos hfunds] at h; cases h
          · rw [if_neg hfunds] at h
            exact ⟨⟨from_pot, rfl, by simpa using hown⟩, ⟨to_pot, rfl, by simpa using hown2⟩,
              hfunds, h⟩
        · rw [if_neg hown2] at h; cases h
    · rw [if_neg hown] at h; cases h

/-! ### Claim C1: balance conservation -/

/-- C1 counterexample: the claim fails as stated.  In `dbCross` both accounts
    are internal (`is_external = false`) and hold different currencies with a
    stored rate of 2; the total of leg-derived balances is 0, yet after a
    successful `create_transfer` of 5 between these two internal accounts the
    total is 5, because the debit leg carries 5 while the credit leg carries
    the converted 10. -/
theorem balance_conservation_counterexample :
    totalBalance dbCross = 0
      ∧ dbCross.accounts.all (fun a => !a.is_external) = true
      ∧ (match create_transfer dbCross 1 2 5 none (some 3) 3 with
          | .ok p => some (totalBalance p.1)
          | .error _ => none) = some 5 := by
  refine ⟨?_, ?_, ?_⟩
  · simp [dbCross, totalBalance, get_account_balance, legInRange, legEffect]
  · simp [dbCross]
  · simp [create_transfer, get_account, tx_convert_amount, get_currency,
      convert_amount, get_exchange_rate, get_by_code, upper_GBP, upper_USD, latestRate,
      dateStartTime, transferDescription, dbCross, gbp, usd, totalBalance,
      get_account_balance, legInRange, legEffect, List.find?_cons, List.filter_cons,
      List.any_cons]
    norm_num

/-- C1 (amended): the ledger-wide sum of leg-derived account balances is
    unchanged by every successful `create_multi_leg_transaction` (hence by the
    pot transfers, which route through it) and by every successful
    same-currency `create_transfer`, under well-formedness of the store
    (duplicate-free account ids; no stored leg already references the next
    transaction id).  A cross-currency `create_transfer` changes the sum by
    the conversion difference even between two internal accounts, so the
    same-currency restriction replaces the claim's external-account side
    condition. -/
theorem balance_conservation_amended :
    (∀ db db' legs description transaction_date today tx,
        (db.accounts.map (fun a => a.id)).Nodup →
        (∀ l ∈ db.legs, l.transaction_id ≠ db.next_transaction_id) →
        create_multi_leg_transaction db legs description transaction_date today
          = .ok (db', tx) →
        totalBalance db' = totalBalance db)
      ∧ (∀ db db' fid tid amount description transaction_date today tx from_account
            to_account,
          (db.accounts.map (fun a => a.id)).Nodup →
          (∀ l ∈ db.legs, l.transaction_id ≠ db.next_transaction_id) →
          get_account db fid = some from_account →
          get_account db tid = some to_account →
          from_account.currency_id = to_account.currency_id →
          create_transfer db fid tid amount description transaction_date today
            = .ok (db', tx) →
          totalBalance db' = totalBalance db)
      ∧ (∀ db db' account_id pot_id amount description transaction_date today tx,
          (db.accounts.map (fun a => a.id)).Nodup →
          (∀ l ∈ db.legs, l.transaction_id ≠ db.next_transaction_id) →
          transfer_to_pot db account_id pot_id amount description transaction_date today
            = .ok (db', tx) →
          totalBalance db' = totalBalance db)
      ∧ (∀ db db' account_id pot_id amount description transaction_date today tx,
          (db.accounts.map (fun a => a.id)).Nodup →
          (∀ l ∈ db.legs, l.transaction_id ≠ db.next_transaction_id) →
          transfer_from_pot db account_id pot_id amount description transaction_date today
            = .ok (db', tx) →
          totalBalance db' = totalBalance db)
      ∧ (∀ db db' account_id from_pot_id to_pot_id amount description transaction_date
            today tx,
          (db.accounts.map (fun a => a.id)).Nodup →
          (∀ l ∈ db.legs, l.transaction_id ≠ db.next_transaction_id) →
          transfer_between_pots db account_id from_pot_id to_pot_id amount description
            transaction_date today = .ok (db', tx) →
          totalBalance db' = totalBalance db) := by
  refine ⟨?_, ?_, ?_, ?_, ?_⟩
  · intro db db' legs description transaction_date today tx hnd hfresh h
    exact create_multi_leg_totalBalance db db' legs description transaction_date today tx
      hnd hfresh h
  · intro db db' fid tid amount description transaction_date today tx fa ta hnd hfresh
      hfa hta hc h
    exact create_transfer_totalBalance db db' fid tid amount description transaction_date
      today tx fa ta hnd hfresh hfa hta hc h
  · intro db db' account_id pot_id amount description transaction_date today tx hnd hfresh h
    obtain ⟨-, -, hml⟩ := transfer_to_pot_ok db db' account_id pot_id amount description
      transaction_date today tx h
    exact create_multi_leg_totalBalance db db' _ _ transaction_date today tx hnd hfresh hml
  · intro db db' account_id pot_id amount description transaction_date today tx hnd hfresh h
    obtain ⟨-, -, hml⟩ := transfer_from_pot_ok db db' account_id pot_id amount description
      transaction_date today tx h
    exact create_multi_leg_totalBalance db db' _ _ transaction_date today tx hnd hfresh hml
  · intro db db' account_id from_pot_id to_pot_id amount description transaction_date today
      tx hnd hfresh h
    obtain ⟨-, -, -, hml⟩ := transfer_between_pots_ok db db' account_id from_pot_id
      to_pot_id amount description transaction_date today tx h
    exact create_multi_leg_totalBalance db db' _ _ transaction_date today tx hnd hfresh hml

/-- C1 witness: the amended conservation theorem applied to a concrete
    same-currency transfer on `dbTwoGBP`. -/
theorem balance_conservation_amended_witness :
    ∃ p, create_transfer dbTwoGBP 1 2 0 (some "w") (some 3) 3 = .ok p
      ∧ totalBalance p.1 = totalBalance dbTwoGBP := by
  have hrun : create_transfer dbTwoGBP 1 2 0 (some "w") (some 3) 3
      = .ok ({ dbTwoGBP with
               transactions := [{ id := 1, description := "w", date := 3, currency_id := 1 }]
               legs :=
                 [ { id := 1, transaction_id := 1, account_id := 1, pot_id := none,
                     currency_id := 1, debit := some 0, credit := none, exchange_rate := 1 },
                   { id := 2, transaction_id := 1, account_id := 2, pot_id := none,
                     currency_id := 1, debit := none, credit := some 0,
                     exchange_rate := 1 } ]
               next_transaction_id := 2
               next_leg_id := 3 },
             { id := 1, description := "w", date := 3, currency_id := 1 }) := by
    simp [create_transfer, get_account, tx_convert_amount, dbTwoGBP, gbp,
      List.find?_cons, dateStartTime]
  refine ⟨_, hrun, ?_⟩
  exact balance_conservation_amended.2.1 dbTwoGBP _ 1 2 0 (some "w") (some 3) 3 _
    { id := 1, name := "Checking", currency_id := 1, balance := 0, is_external := false }
    { id := 2, name := "Savings", currency_id := 1, balance := 0, is_external := false }
    (by decide)
    (by simp [dbTwoGBP])
    (by simp [get_account, dbTwoGBP, List.find?_cons])
    (by simp [get_account, dbTwoGBP, List.find?_cons])
    rfl
    hrun

/-! ### Claim C2: the unbalanced-legs check -/

/-- C2: `create_multi_leg_transaction` fails with the unbalanced-legs error
    exactly when the raw numeric sum of debit amounts differs from the raw
    numeric sum of credit amounts (the source test `abs(td - tc) > 0`), and on
    that failure no successor store exists: the check precedes every session
    write, so the store is exactly as before the call. -/
theorem unbalanced_legs_iff (db : DB) (legs : List LegInput) (description : String)
    (transaction_date : Option Nat) (today : Nat) :
    (create_multi_leg_transaction db legs description transaction_date today
        = .error .unbalancedLegs
      ↔ sum_debits legs ≠ sum_credits legs)
      ∧ (sum_debits legs ≠ sum_credits legs →
          ∀ r, create_multi_leg_transaction db legs description transaction_date today
            ≠ .ok r) := by
  have hmpr : sum_debits legs ≠ sum_credits legs →
      create_multi_leg_transaction db legs description transaction_date today
        = .error .unbalancedLegs := by
    intro hne
    unfold create_multi_leg_transaction
    rw [if_pos hne]
  have hmp : create_multi_leg_transaction db legs description transaction_date today
      = .error .unbalancedLegs → sum_debits legs ≠ sum_credits legs := by
    intro h
    by_contra heq
    unfold create_multi_leg_transaction at h
    rw [if_neg (not_ne_iff.mpr heq)] at h
    cases hhead : legs.head? with
    | none => simp only [hhead] at h; cases h
    | some first_leg =>
      simp only [hhead] at h
      cases hacct : get_account db first_leg.account_id with
      | none => simp only [hacct] at h; cases h
      | some first_account =>
        simp only [hacct] at h
        cases hbuild : build_legs db first_account db.next_transaction_id
            (dateStartTime (transaction_date.getD today)) db.next_leg_id legs with
        | error e =>
          simp only [hbuild] at h
          cases h
          rcases build_legs_error db first_account db.next_transaction_id
              (dateStartTime (transaction_date.getD today)) legs db.next_leg_id
              .unbalancedLegs hbuild with h1 | h1 | h1 <;> cases h1
        | ok built => simp only [hbuild] at h; cases h
  refine ⟨⟨hmp, hmpr⟩, ?_⟩
  intro hne r h
  rw [hmpr hne] at h
  cases h

/-- C2 witness: the balance check fired on a concrete unbalanced call. -/
theorem unbalanced_legs_iff_witness :
    create_multi_leg_transaction dbTwoGBP [{ account_id := 1, debit := some 5 }] "x"
      (some 3) 3 = .error .unbalancedLegs :=
  (unbalanced_legs_iff dbTwoGBP [{ account_id := 1, debit := some 5 }] "x" (some 3) 3).1.mpr
    (by norm_num [sum_debits, sum_credits])

/-! ### Claim C3: the missing minimum-leg-count check -/

/-- C3 counterexample: `create_multi_leg_transaction` accepts a single-leg
    input (credit 0), committing a one-leg transaction, so the claimed
    at-least-two-legs rejection does not exist in the code. -/
theorem min_two_legs_counterexample :
    (match create_multi_leg_transaction dbTwoGBP [{ account_id := 1, credit := some 0 }]
        "single" (some 3) 3 with
      | .ok p => some (p.1.transactions.length, p.1.legs.length)
      | .error _ => none) = some (1, 1) := by
  simp [create_multi_leg_transaction, sum_debits, sum_credits, build_legs, leg_rate,
    get_account, dbTwoGBP, gbp, dateStartTime, List.find?_cons]

/-- C3 (amended): there is no minimum-leg-count validation.  The empty list
    fails with an index error (before anything is persisted), a single leg
    with a nonzero net amount fails the balance check, but a single zero
    amount leg is accepted; the two-account transfer and hence the pot
    wrappers always append exactly two legs, and in general a committed
    multi-leg transaction has exactly one leg per input. -/
theorem min_two_legs_amended :
    (∀ db description transaction_date today,
        create_multi_leg_transaction db ([] : List LegInput) description transaction_date
          today = .error .indexError)
      ∧ (∀ db (leg : LegInput) description transaction_date today,
          leg.debit.getD 0 ≠ leg.credit.getD 0 →
          create_multi_leg_transaction db [leg] description transaction_date today
            = .error .unbalancedLegs)
      ∧ (∀ db db' legs description transaction_date today tx,
          create_multi_leg_transaction db legs description transaction_date today
            = .ok (db', tx) →
          db'.legs.length = db.legs.length + legs.length)
      ∧ (∀ db db' fid tid amount description transaction_date today tx,
          create_transfer db fid tid amount description transaction_date today
            = .ok (db', tx) →
          db'.legs.length = db.legs.length + 2) := by
  refine ⟨?_, ?_, ?_, ?_⟩
  · intro db description transaction_date today
    unfold create_multi_leg_transaction
    rw [if_neg (by simp [sum_debits, sum_credits])]
    rfl
  · intro db leg description transaction_date today hne
    unfold create_multi_leg_transaction
    rw [if_pos (by simpa [sum_debits, sum_credits] using hne)]
  · intro db db' legs description transaction_date today tx h
    obtain ⟨-, first_leg, first_account, built, -, -, hbuild, -, hdb⟩ :=
      create_multi_leg_ok db db' legs description transaction_date today tx h
    have hlen := build_legs_length db first_account db.next_transaction_id
      (dateStartTime (transaction_date.getD today)) legs db.next_leg_id built hbuild
    rw [hdb]
    simp [hlen]
  · intro db db' fid tid amount description transaction_date today tx h
    obtain ⟨fa, ta, from_amount, to_amount, -, -, -, -, hdb⟩ :=
      create_transfer_ok db db' fid tid amount description transaction_date today tx h
    rw [hdb]
    simp

/-- C3 witness: the amended statement applied to a concrete one-leg input
    with nonzero amount. -/
theorem min_two_legs_amended_witness :
    create_multi_leg_transaction dbTwoGBP [{ account_id := 1, debit := some 7 }] "y"
      (some 3) 3 = .error .unbalancedLegs :=
  min_two_legs_amended.2.1 dbTwoGBP { account_id := 1, debit := some 7 } "y" (some 3) 3
    (by norm_num)

/-! ### Claim C4: pot ownership -/

/-- Extracting the two rows of a two-input leg build. -/
theorem built_pair_quads (built : List TransactionLeg)
    (q1 q2 : Nat × Option Nat × Option Amount × Option Amount)
    (hq : built.map legQuad = [q1, q2]) :
    ∃ b1 b2, built = [b1, b2] ∧ legQuad b1 = q1 ∧ legQuad b2 = q2 := by
  cases built with
  | nil => simp at hq
  | cons b1 rest =>
    cases rest with
    | nil => simp at hq
    | cons b2 rest2 =>
      cases rest2 with
      | nil =>
        simp only [List.map_cons, List.map_nil, List.cons.injEq, and_true] at hq
        exact ⟨b1, b2, rfl, hq.1, hq.2⟩
      | cons b3 rest3 => simp at hq

/-- Appending legs whose pot references are owned preserves the ownership
    invariant, provided the pot table is unchanged. -/
theorem PotLegsOwned_extend (db db' : DB) (built : List TransactionLeg)
    (hpots : db'.pots = db.pots) (hlegs : db'.legs = db.legs ++ built)
    (hown : ∀ l ∈ built, ∀ pid, l.pot_id = some pid →
        ∀ p, get_pot db pid = some p → p.account_id = l.account_id)
    (h : PotLegsOwned db) : PotLegsOwned db' := by
  intro l hl pid hpid p hp
  have hget : get_pot db' pid = get_pot db pid := by unfold get_pot; rw [hpots]
  rw [hget] at hp
  rw [hlegs] at hl
  rcases List.mem_append.mp hl with h1 | h1
  · exact h l h1 pid hpid p hp
  · exact hown l h1 pid hpid p hp

/-- C4 counterexample: pot 7 of `dbForeignPot` belongs to account 2, yet
    `create_multi_leg_transaction` happily commits a leg on account 1 tagged
    with pot 7 — the primitive performs no pot-ownership validation, so a
    reachable state violates `pot.account_id == leg.account_id`. -/
theorem pot_ownership_counterexample :
    (get_pot dbForeignPot 7).map (fun p => p.account_id) = some 2
      ∧ (match create_multi_leg_transaction dbForeignPot
            [ { account_id := 1, debit := some 5 },
              { account_id := 1, pot_id := some 7, credit := some 5 } ] "cross"
            (some 3) 3 with
          | .ok p => some (p.1.legs.map (fun l => (l.account_id, l.pot_id)))
          | .error _ => none) = some [(1, none), (1, some 7)] := by
  constructor
  · simp [get_pot, dbForeignPot, List.find?_cons]
  · simp [create_multi_leg_transaction, sum_debits, sum_credits, build_legs, leg_rate,
      get_account, dbForeignPot, gbp, dateStartTime, List.find?_cons]

/-- C4 (amended): the three pot-transfer operations validate ownership before
    building their legs, so each of them preserves the invariant that every
    pot-tagged leg references a pot of its own account; `create_transfer`
    preserves it trivially (its legs carry no pot tag).  The general primitive
    `create_multi_leg_transaction` performs no such validation and is excluded
    (see the counterexample). -/
theorem pot_ownership_amended :
    (∀ db db' account_id pot_id amount description transaction_date today tx,
        PotLegsOwned db →
        transfer_to_pot db account_id pot_id amount description transaction_date today
          = .ok (db', tx) →
        PotLegsOwned db')
      ∧ (∀ db db' account_id pot_id amount description transaction_date today tx,
          PotLegsOwned db →
          transfer_from_pot db account_id pot_id amount description transaction_date today
            = .ok (db', tx) →
          PotLegsOwned db')
      ∧ (∀ db db' account_id from_pot_id to_pot_id amount description transaction_date
            today tx,
          PotLegsOwned db →
          transfer_between_pots db account_id from_pot_id to_pot_id amount description
            transaction_date today = .ok (db', tx) →
          PotLegsOwned db')
      ∧ (∀ db db' fid tid amount description transaction_date today tx,
          PotLegsOwned db →
          create_transfer db fid tid amount description transaction_date today
            = .ok (db', tx) →
          PotLegsOwned db') := by
  refine ⟨?_, ?_, ?_, ?_⟩
  · intro db db' account_id pot_id amount description transaction_date today tx hinv h
    obtain ⟨⟨pot, hpot, hpown⟩, -, hml⟩ := transfer_to_pot_ok db db' account_id pot_id
      amount description transaction_date today tx h
    obtain ⟨-, first_leg, first_account, built, -, -, hbuild, -, hdb⟩ :=
      create_multi_leg_ok db db' _ _ transaction_date today tx hml
    obtain ⟨hq, -, -⟩ := build_legs_ok db first_account db.next_transaction_id
      (dateStartTime (transaction_date.getD today)) _ db.next_leg_id built hbuild
    obtain ⟨b1, b2, hbuilt, hq1, hq2⟩ := built_pair_quads built _ _ hq
    apply PotLegsOwned_extend db db' built (by rw [hdb]) (by rw [hdb]) ?_ hinv
    intro l hl pid hpid p hp
    obtain ⟨ha1, hp1, -, -⟩ := legQuad_fields hq1
    obtain ⟨ha2, hp2, -, -⟩ := legQuad_fields hq2
    rw [hbuilt] at hl
    rcases List.mem_cons.mp hl with h1 | h1
    · subst h1
      rw [hp1] at hpid
      cases hpid
    · rcases List.mem_cons.mp h1 with h2 | h2
      · subst h2
        rw [hp2] at hpid
        cases hpid
        rw [hpot] at hp
        cases hp
        rw [ha2]
        exact hpown
      · cases h2
  · intro db db' account_id pot_id amount description transaction_date today tx hinv h
    obtain ⟨⟨pot, hpot, hpown⟩, -, hml⟩ := transfer_from_pot_ok db db' account_id pot_id
      amount description transaction_date today tx h
    obtain ⟨-, first_leg, first_account, built, -, -, hbuild, -, hdb⟩ :=
      create_multi_leg_ok db db' _ _ transaction_date today tx hml
    obtain ⟨hq, -, -⟩ := build_legs_ok db first_account db.next_transaction_id
      (dateStartTime (transaction_date.getD today)) _ db.next_leg_id built hbuild
    obtain ⟨b1, b2, hbuilt, hq1, hq2⟩ := built_pair_quads built _ _ hq
    apply PotLegsOwned_extend db db' built (by rw [hdb]) (by rw [hdb]) ?_ hinv
    intro l hl pid hpid p hp
    obtain ⟨ha1, hp1, -, -⟩ := legQuad_fields hq1
    obtain ⟨ha2, hp2, -, -⟩ := legQuad_fields hq2
    rw [hbuilt] at hl
    rcases List.mem_cons.mp hl with h1 | h1
    · subst h1
      rw [hp1] at hpid
      cases hpid
      rw [hpot] at hp
      cases hp
      rw [ha1]
      exact hpown
    · rcases List.mem_cons.mp h1 with h2 | h2
      · subst h2
        rw [hp2] at hpid
        cases hpid
      · cases h2
  · intro db db' account_id from_pot_id to_pot_id amount description transaction_date
      today tx hinv h
    obtain ⟨⟨from_pot, hfpot, hfown⟩, ⟨to_pot, htpot, htown⟩, -, hml⟩ :=
      transfer_between_pots_ok db db' account_id from_pot_id to_pot_id amount description
        transaction_date today tx h
    obtain ⟨-, first_leg, first_account, built, -, -, hbuild, -, hdb⟩ :=
      create_multi_leg_ok db db' _ _ transaction_date today tx hml
    obtain ⟨hq, -, -⟩ := build_legs_ok db first_account db.next_transaction_id
      (dateStartTime (transaction_date.getD today)) _ db.next_leg_id built hbuild
    obtain ⟨b1, b2, hbuilt, hq1, hq2⟩ := built_pair_quads built _ _ hq
    apply PotLegsOwned_extend db db' built (by rw [hdb]) (by rw [hdb]) ?_ hinv
    intro l hl pid hpid p hp
    obtain ⟨ha1, hp1, -, -⟩ := legQuad_fields hq1
    obtain ⟨ha2, hp2, -, -⟩ := legQuad_fields hq2
    rw [hbuilt] at hl
    rcases List.mem_cons.mp hl with h1 | h1
    · subst h1
      rw [hp1] at hpid
      cases hpid
      rw [hfpot] at hp
      cases hp
      rw [ha1]
      exact hfown
    · rcases List.mem_cons.mp h1 with h2 | h2
      · subst h2
        rw [hp2] at hpid
        cases hpid
        rw [htpot] at hp
        cases hp
        rw [ha2]
        exact htown
      · cases h2
  · intro db db' fid tid amount description transaction_date today tx hinv h
    obtain ⟨fa, ta, from_amount, to_amount, -, -, -, -, hdb⟩ :=
      create_transfer_ok db db' fid tid amount description transaction_date today tx h
    apply PotLegsOwned_extend db db' _ (by rw [hdb]) (by rw [hdb]) ?_ hinv
    intro l hl pid hpid p hp
    rcases List.mem_cons.mp hl with h1 | h1
    · subst h1
      cases hpid
    · rcases List.mem_cons.mp h1 with h2 | h2
      · subst h2
        cases hpid
      · cases h2

/-- C4 witness: the amended preservation applied to a concrete
    `transfer_to_pot` on `dbPot` (pot 1 owned by account 1). -/
theorem pot_ownership_amended_witness :
    ∃ p, transfer_to_pot dbPot 1 1 6 (some "v") (some 1) 1 = .ok p ∧ PotLegsOwned p.1 := by
  have hrun : transfer_to_pot dbPot 1 1 6 (some "v") (some 1) 1
      = .ok ({ dbPot with
               transactions :=
                 [ { id := 1, description := "Seed", date := 0, currency_id := 1 },
                   { id := 2, description := "v", date := 1, currency_id := 1 } ]
               legs :=
                 [ { id := 1, transaction_id := 1, account_id := 1, pot_id := none,
                     currency_id := 1, debit := none, credit := some 10,
                     exchange_rate := 1 },
                   { id := 2, transaction_id := 2, account_id := 1, pot_id := none,
                     currency_id := 1, debit := some 6, credit := none,
                     exchange_rate := 1 },
                   { id := 3, transaction_id := 2, account_id := 1, pot_id := some 1,
                     currency_id := 1, debit := none, credit := some 6,
                     exchange_rate := 1 } ]
               next_transaction_id := 3
               next_leg_id := 4 },
             { id := 2, description := "v", date := 1, currency_id := 1 }) := by
    simp [transfer_to_pot, validate_pot_ownership, get_pot, get_account_balance,
      create_multi_leg_transaction, sum_debits, sum_credits, build_legs, leg_rate,
      get_account, dbPot, gbp, dateStartTime, legInRange, legEffect, List.find?_cons,
      List.filter_cons, List.any_cons]
    norm_num
  refine ⟨_, hrun, ?_⟩
  apply pot_ownership_amended.1 dbPot _ 1 1 6 (some "v") (some 1) 1 _ ?_ hrun
  intro l hl pid hpid p hp
  simp only [dbPot, List.mem_cons] at hl
  rcases hl with h1 | h1
  · rw [h1] at hpid
    cases hpid
  · cases h1

/-! ### Claim C5: pot containment -/

/-- C5 counterexample: pot containment is not an invariant.  Account 1 of
    `dbPot` has leg-derived balance 10 and owns pot 1; each of two successive
    `transfer_to_pot` calls of 6 passes the insufficient-funds check (which
    compares against the account balance, unchanged by pot transfers), after
    which the pot balance is 12 while the account balance is still 10. -/
theorem pot_containment_counterexample :
    (match transfer_to_pot dbPot 1 1 6 none (some 1) 1 with
      | .ok p =>
        match transfer_to_pot p.1 1 1 6 none (some 2) 2 with
        | .ok q => some (get_pot_balance q.1 1 none, get_account_balance q.1 1 none,
            decide (get_pot_balance q.1 1 none ≤ get_account_balance q.1 1 none))
        | .error _ => none
      | .error _ => none) = some (12, 10, false) := by
  simp [transfer_to_pot, validate_pot_ownership, get_pot, get_account_balance,
    get_pot_balance, create_multi_leg_transaction, sum_debits, sum_credits, build_legs,
    leg_rate, get_account, dbPot, gbp, dateStartTime, legInRange, legEffect,
    List.find?_cons, List.filter_cons, List.any_cons]
  all_goals norm_num [leg_rate, legEffect, legInRange, List.filter_cons, List.any_cons,
    List.all_cons]

/-- C5 (amended): what `transfer_to_pot` actually guarantees.  A successful
    call requires only `amount ≤ accountBalance` at call time; it leaves the
    account balance unchanged (its two legs cancel on the account) and raises
    the pot balance by the amount, so repeated transfers can push a pot above
    its account balance and the containment `potBalance ≤ accountBalance` is
    not maintained. -/
theorem pot_transfer_balance_amended :
    ∀ db db' account_id pot_id amount description transaction_date today tx,
      (∀ l ∈ db.legs, l.transaction_id ≠ db.next_transaction_id) →
      transfer_to_pot db account_id pot_id amount description transaction_date today
        = .ok (db', tx) →
      amount ≤ get_account_balance db account_id none
        ∧ get_account_balance db' account_id none = get_account_balance db account_id none
        ∧ get_pot_balance db' pot_id none = get_pot_balance db pot_id none + amount := by
  intro db db' account_id pot_id amount description transaction_date today tx hfresh h
  obtain ⟨-, hfunds, hml⟩ := transfer_to_pot_ok db db' account_id pot_id amount description
    transaction_date today tx h
  obtain ⟨built, hq, -, hdeltaAcc, hdeltaPot⟩ :=
    create_multi_leg_balance db db' _ _ transaction_date today tx hfresh hml
  obtain ⟨b1, b2, hbuilt, hq1, hq2⟩ := built_pair_quads built _ _ (by simpa using hq)
  have heff1 : legEffect b1 = -amount := by
    rw [legEffect_eq_quadEffect, hq1]
    simp [quadEffect, inputQuad]
  have heff2 : legEffect b2 = amount := by
    rw [legEffect_eq_quadEffect, hq2]
    simp [quadEffect, inputQuad]
  obtain ⟨ha1, hp1, -, -⟩ := legQuad_fields hq1
  obtain ⟨ha2, hp2, -, -⟩ := legQuad_fields hq2
  simp only [inputQuad] at ha1 hp1 ha2 hp2
  refine ⟨le_of_not_lt hfunds, ?_, ?_⟩
  · have hd := hdeltaAcc account_id
    rw [hbuilt, pair_filter_sum] at hd
    rw [hd, if_pos (by simp [ha1]), if_pos (by simp [ha2]), heff1, heff2]
    ring
  · have hd := hdeltaPot pot_id
    rw [hbuilt, pair_filter_sum] at hd
    rw [hd, if_neg (by simp [hp1]), if_pos (by simp [hp2]), heff2]
    ring

/-- C5 witness: the amended statement applied to a concrete transfer to
    pot 1 on `dbPot`. -/
theorem pot_transfer_balance_amended_witness :
    ∃ p, transfer_to_pot dbPot 1 1 6 (some "u") (some 1) 1 = .ok p
      ∧ (6 : Amount) ≤ get_account_balance dbPot 1 none
      ∧ get_account_balance p.1 1 none = get_account_balance dbPot 1 none
      ∧ get_pot_balance p.1 1 none = get_pot_balance dbPot 1 none + 6 := by
  have hrun : transfer_to_pot dbPot 1 1 6 (some "u") (some 1) 1
      = .ok ({ dbPot with
               transactions :=
                 [ { id := 1, description := "Seed", date := 0, currency_id := 1 },
                   { id := 2, description := "u", date := 1, currency_id := 1 } ]
               legs :=
                 [ { id := 1, transaction_id := 1, account_id := 1, pot_id := none,
                     currency_id := 1, debit := none, credit := some 10,
                     exchange_rate := 1 },
                   { id := 2, transaction_id := 2, account_id := 1, pot_id := none,
                     currency_id := 1, debit := some 6, credit := none,
                     exchange_rate := 1 },
                   { id := 3, transaction_id := 2, account_id := 1, pot_id := some 1,
                     currency_id := 1, debit := none, credit := some 6,
                     exchange_rate := 1 } ]
               next_transaction_id := 3
               next_leg_id := 4 },
             { id := 2, description := "u", date := 1, currency_id := 1 }) := by
    simp [transfer_to_pot, validate_pot_ownership, get_pot, get_account_balance,
      create_multi_leg_transaction, sum_debits, sum_credits, build_legs, leg_rate,
      get_account, dbPot, gbp, dateStartTime, legInRange, legEffect, List.find?_cons,
      List.filter_cons, List.any_cons]
    norm_num
  obtain ⟨h1, h2, h3⟩ := pot_transfer_balance_amended dbPot _ 1 1 6 (some "u") (some 1) 1 _
    (by simp [dbPot]) hrun
  exact ⟨_, hrun, h1, h2, h3⟩

/-! ### Claim C6: stored balance caches -/

/-- C6 counterexample: the denormalized caches do not track the legs.
    `dbCross` starts cache-consistent, but a committed multi-leg transaction
    (debit 5 on account 1, credit 5 on account 2) never touches the stored
    balance columns, which then disagree with the leg-derived balances;
    likewise `dbPot` starts consistent and a successful `transfer_to_pot`
    leaves `current_amount` at 0 while the leg-derived pot balance becomes 6. -/
theorem cache_counterexample :
    accountCachesMatch dbCross = true
      ∧ (match create_multi_leg_transaction dbCross
            [ { account_id := 1, debit := some 5 }, { account_id := 2, credit := some 5 } ]
            "move" (some 3) 3 with
          | .ok p => some (accountCachesMatch p.1)
          | .error _ => none) = some false
      ∧ potCachesMatch dbPot = true
      ∧ (match transfer_to_pot dbPot 1 1 6 none (some 1) 1 with
          | .ok p => some (potCachesMatch p.1)
          | .error _ => none) = some false := by
  refine ⟨?_, ?_, ?_, ?_⟩
  · simp [accountCachesMatch, dbCross, get_account_balance, legInRange, legEffect]
  · simp [create_multi_leg_transaction, sum_debits, sum_credits, build_legs, leg_rate,
      get_account, get_currency, get_exchange_rate, get_by_code, upper_GBP, upper_USD,
      latestRate, accountCachesMatch, get_account_balance, legInRange, legEffect, dbCross,
      gbp, usd, dateStartTime, List.find?_cons, List.filter_cons, List.any_cons,
      List.all_cons]
  · simp [potCachesMatch, dbPot, get_pot_balance, legInRange, legEffect]
  · simp [transfer_to_pot, validate_pot_ownership, get_pot, get_account_balance,
      get_pot_balance, create_multi_leg_transaction, sum_debits, sum_credits, build_legs,
      leg_rate, get_account, potCachesMatch, dbPot, gbp, dateStartTime, legInRange,
      legEffect, List.find?_cons, List.filter_cons, List.any_cons, List.all_cons]
    all_goals norm_num [leg_rate, legEffect, legInRange, List.filter_cons, List.any_cons,
      List.all_cons]

/-- C6 (amended): only `create_transfer` maintains the account balance
    columns — it adjusts the two stored balances by exactly the amounts of the
    two legs it appends, so cache consistency is preserved by it — while
    `create_multi_leg_transaction` (and hence every pot transfer) leaves every
    stored account balance and pot `current_amount` untouched, so its caches
    diverge whenever a committed transaction has a net nonzero effect on an
    account or pot. -/
theorem cache_amended :
    (∀ db db' fid tid amount description transaction_date today tx,
        (∀ l ∈ db.legs, l.transaction_id ≠ db.next_transaction_id) →
        (∀ a ∈ db.accounts, a.balance = get_account_balance db a.id none) →
        create_transfer db fid tid amount description transaction_date today
          = .ok (db', tx) →
        ∀ a ∈ db'.accounts, a.balance = get_account_balance db' a.id none)
      ∧ (∀ db db' legs description transaction_date today tx,
          create_multi_leg_transaction db legs description transaction_date today
            = .ok (db', tx) →
          db'.accounts = db.accounts ∧ db'.pots = db.pots) := by
  constructor
  · intro db db' fid tid amount description transaction_date today tx hfresh hcaches h
    obtain ⟨from_account, to_account, from_amount, to_amount, hfa, hta, hconv, htx, hdb⟩ :=
      create_transfer_ok db db' fid tid amount description transaction_date today tx h
    have htxid : tx.id = db.next_transaction_id := by rw [htx]
    have hdelta : ∀ aid, get_account_balance db' aid none
        = get_account_balance db aid none
          + ((if fid = aid then -from_amount else 0) + (if tid = aid then to_amount else 0))
        := by
      intro aid
      rw [get_account_balance_extend db db' tx
        [ { id := db.next_leg_id, transaction_id := db.next_transaction_id,
            account_id := fid, pot_id := none, currency_id := from_account.currency_id,
            debit := some from_amount, credit := none, exchange_rate := 1 },
          { id := db.next_leg_id + 1, transaction_id := db.next_transaction_id,
            account_id := tid, pot_id := none, currency_id := to_account.currency_id,
            debit := none, credit := some to_amount,
            exchange_rate := if from_amount ≠ to_amount then to_amount / from_amount
              else 1 } ]
        (by rw [hdb]) (by rw [hdb])
        (by intro l hl; rw [htxid]; exact hfresh l hl)
        (by
          intro l hl
          rw [htxid]
          rcases List.mem_cons.mp hl with h1 | h1
          · rw [h1]
          · rcases List.mem_cons.mp h1 with h2 | h2
            · rw [h2]
            · cases h2) aid, pair_filter_sum]
      congr 1
      congr 1
      · by_cases hc : fid = aid
        · rw [if_pos (by simp [hc]), if_pos hc]
          simp [legEffect]
        · rw [if_neg (by simp [hc]), if_neg hc]
      · by_cases hc : tid = aid
        · rw [if_pos (by simp [hc]), if_pos hc]
          simp [legEffect]
        · rw [if_neg (by simp [hc]), if_neg hc]
    have hacc : db'.accounts = (db.accounts.map (fun a =>
        if a.id == fid then { a with balance := a.balance - from_amount } else a)).map
          (fun a => if a.id == tid then { a with balance := a.balance + to_amount }
            else a) := by
      rw [hdb]
    intro a2 ha2
    rw [hacc] at ha2
    obtain ⟨b, hb, hba⟩ := List.mem_map.mp ha2
    obtain ⟨a, ha, hab⟩ := List.mem_map.mp hb
    have hbase := hcaches a ha
    subst hba
    subst hab
    by_cases h1 : a.id = fid <;> by_cases h2 : a.id = tid
    · have h3 : fid = tid := h1.symm.trans h2
      simp [h1, h2, h3, hdelta, hbase]
      ring
    · have h3 : ¬ fid = tid := fun hft => h2 (h1.trans hft)
      have h3s : ¬ tid = fid := fun hft => h3 hft.symm
      have h2s : ¬ tid = a.id := fun hts => h2 hts.symm
      simp [h1, h2, h3, h3s, h2s, hdelta, hbase]
      try ring
    · have h3 : ¬ tid = fid := fun hft => h1 (h2.trans hft)
      have h3s : ¬ fid = tid := fun hft => h3 hft.symm
      have h1s : ¬ fid = a.id := fun hts => h1 hts.symm
      simp [h1, h2, h3, h3s, h1s, hdelta, hbase]
      try ring
    · have h1s : ¬ fid = a.id := fun hts => h1 hts.symm
      have h2s : ¬ tid = a.id := fun hts => h2 hts.symm
      simp [h1, h2, h1s, h2s, hdelta, hbase]
  · intro db db' legs description transaction_date today tx h
    obtain ⟨hacc, hpots, -, -⟩ :=
      create_multi_leg_frame db db' legs description transaction_date today tx h
    exact ⟨hacc, hpots⟩

/-- C6 witness: the amended statement applied to a concrete same-currency
    transfer on the cache-consistent store `dbTwoGBP`. -/
theorem cache_amended_witness :
    ∃ p, create_transfer dbTwoGBP 1 2 0 (some "z") (some 3) 3 = .ok p
      ∧ ∀ a ∈ p.1.accounts, a.balance = get_account_balance p.1 a.id none := by
  have hrun : create_transfer dbTwoGBP 1 2 0 (some "z") (some 3) 3
      = .ok ({ dbTwoGBP with
               transactions := [{ id := 1, description := "z", date := 3, currency_id := 1 }]
               legs :=
                 [ { id := 1, transaction_id := 1, account_id := 1, pot_id := none,
                     currency_id := 1, debit := some 0, credit := none, exchange_rate := 1 },
                   { id := 2, transaction_id := 1, account_id := 2, pot_id := none,
                     currency_id := 1, debit := none, credit := some 0,
                     exchange_rate := 1 } ]
               next_transaction_id := 2
               next_leg_id := 3 },
             { id := 1, description := "z", date := 3, currency_id := 1 }) := by
    simp [create_transfer, get_account, tx_convert_amount, dbTwoGBP, gbp,
      List.find?_cons, dateStartTime]
  refine ⟨_, hrun, ?_⟩
  apply cache_amended.1 dbTwoGBP _ 1 2 0 (some "z") (some 3) 3 _
    (by simp [dbTwoGBP]) ?_ hrun
  intro a ha
  simp only [dbTwoGBP, List.mem_cons] at ha
  rcases ha with h1 | h1
  · rw [h1]
    simp [get_account_balance, dbTwoGBP, legInRange, legEffect]
  · rcases h1 with h2 | h2
    · rw [h2]
      simp [get_account_balance, dbTwoGBP, legInRange, legEffect]
    · cases h2

/-! ### Claim C7: create_pot funding -/

/-- C7 counterexample: `create_pot` is not a single atomic unit.  On the
    funded path it commits three times, and the first committed state already
    contains the pot row while no leg is tagged with the pot — a reachable
    committed state holding the pot without its backing funding legs. -/
theorem create_pot_atomicity_counterexample :
    (match create_pot dbFund 1 "Holiday" 0 5 3 with
      | .ok r => some (r.1.length, r.1.head?.map (fun d =>
          (d.pots.any (fun p => p.id == 1), d.legs.any (fun l => l.pot_id == some 1))))
      | .error _ => none) = some (3, some (true, false)) := by
  simp [create_pot, get_account, get_account_balance, create_multi_leg_transaction,
    sum_debits, sum_credits, build_legs, leg_rate, dbFund, gbp, dateStartTime, legInRange,
    legEffect, List.find?_cons, List.filter_cons, List.any_cons]
  all_goals norm_num [leg_rate, legEffect, legInRange, List.filter_cons, List.any_cons,
    List.all_cons]

/-- C7 (amended): with a positive initial amount, `create_pot` fails with the
    insufficient-funds error when the leg-derived account balance is below the
    amount (nothing is committed: the check precedes the first commit).  On
    success the final committed state holds the pot (with `current_amount`
    equal to the initial amount) together with its two funding legs — but the
    pot row is committed first in a separate unit, so the first committed
    state contains the pot with the leg table unchanged. -/
theorem create_pot_amended :
    (∀ db account_id name target_amount initial_amount today account,
        get_account db account_id = some account →
        0 < initial_amount →
        get_account_balance db account_id none < initial_amount →
        create_pot db account_id name target_amount initial_amount today
          = .error .insufficientFunds)
      ∧ (∀ db account_id name target_amount initial_amount today commits pot,
          create_pot db account_id name target_amount initial_amount today
            = .ok (commits, pot) →
          0 < initial_amount →
          pot.current_amount = initial_amount
            ∧ pot.account_id = account_id
            ∧ (∃ db1, commits.head? = some db1
                ∧ (∃ p ∈ db1.pots, p.id = pot.id)
                ∧ db1.legs = db.legs)
            ∧ (∃ dbf, commits.getLast? = some dbf
                ∧ pot ∈ dbf.pots
                ∧ (∃ l1 ∈ dbf.legs, l1.account_id = account_id
                    ∧ l1.debit = some initial_amount ∧ l1.pot_id = none)
                ∧ (∃ l2 ∈ dbf.legs, l2.account_id = account_id
                    ∧ l2.credit = some initial_amount ∧ l2.pot_id = some pot.id))) := by
  constructor
  · intro db account_id name target_amount initial_amount today account hacct hpos hlt
    unfold create_pot
    rw [hacct]
    simp only [if_pos (And.intro hpos hlt)]
  · intro db account_id name target_amount initial_amount today commits pot h hpos
    unfold create_pot at h
    cases hacct : get_account db account_id with
    | none => simp only [hacct] at h; cases h
    | some account =>
      simp only [hacct] at h
      by_cases hcond : 0 < initial_amount
          ∧ get_account_balance db account_id none < initial_amount
      · rw [if_pos hcond] at h; cases h
      · rw [if_neg hcond, if_pos hpos] at h
        cases hml : create_multi_leg_transaction
            { db with
              pots := db.pots ++
                [ { id := db.next_pot_id, name := name, target_amount := target_amount,
                    current_amount := 0, is_active := true, account_id := account_id } ]
              next_pot_id := db.next_pot_id + 1 }
            [ { account_id := account_id, debit := some initial_amount },
              { account_id := account_id, pot_id := some db.next_pot_id,
                credit := some initial_amount } ]
            ("Initial funding for pot: " ++ name) none today with
        | error e => simp only [hml] at h; cases h
        | ok p2 =>
          obtain ⟨db2, tx2⟩ := p2
          simp only [hml] at h
          cases h
          obtain ⟨-, first_leg, first_account, built, -, -, hbuild, -, hdb2⟩ :=
            create_multi_leg_ok _ db2 _ _ none today tx2 hml
          obtain ⟨hq, -, -⟩ := build_legs_ok _ first_account _
            (dateStartTime (none.getD today)) _ _ built hbuild
          obtain ⟨b1, b2, hbuilt, hq1, hq2⟩ := built_pair_quads built _ _ (by simpa using hq)
          obtain ⟨ha1, hp1, hd1, hc1⟩ := legQuad_fields hq1
          obtain ⟨ha2, hp2, hd2, hc2⟩ := legQuad_fields hq2
          simp only [inputQuad] at ha1 hp1 hd1 hc1 ha2 hp2 hd2 hc2
          refine ⟨rfl, rfl, ?_, ?_⟩
          · refine ⟨_, rfl, ?_, rfl⟩
            exact ⟨{ id := db.next_pot_id, name := name, target_amount := target_amount,
                     current_amount := 0, is_active := true, account_id := account_id },
              List.mem_append.mpr (Or.inr (List.mem_singleton.mpr rfl)), rfl⟩
          · refine ⟨_, rfl, ?_, ?_, ?_⟩
            · have hpots2 : db2.pots = db.pots ++
                  [ { id := db.next_pot_id, name := name, target_amount := target_amount,
                      current_amount := 0, is_active := true, account_id := account_id } ]
                  := by rw [hdb2]
              rw [hpots2]
              rw [List.map_append]
              apply List.mem_append.mpr
              right
              simp
            · refine ⟨b1, ?_, ha1, hd1, hp1⟩
              have hlegs2 : db2.legs = db.legs ++ built := by rw [hdb2]
              rw [hlegs2, hbuilt]
              exact List.mem_append.mpr (Or.inr (by simp))
            · refine ⟨b2, ?_, ha2, hc2, hp2⟩
              have hlegs2 : db2.legs = db.legs ++ built := by rw [hdb2]
              rw [hlegs2, hbuilt]
              exact List.mem_append.mpr (Or.inr (by simp))

/-- C7 witness: the amended statement applied to a concrete underfunded
    `create_pot` call (balance 10, initial amount 50). -/
theorem create_pot_amended_witness :
    create_pot dbFund 1 "Big" 0 50 3 = .error .insufficientFunds :=
  create_pot_amended.1 dbFund 1 "Big" 0 50 3
    { id := 1, name := "Checking", currency_id := 1, balance := 10, is_external := false }
    (by simp [get_account, dbFund, List.find?_cons])
    (by norm_num)
    (by
      have hbal : get_account_balance dbFund 1 none = 10 := by
        simp [get_account_balance, dbFund, legInRange, legEffect, List.filter_cons,
          List.any_cons]
      rw [hbal]
      norm_num)

/-! ### Claim C8: missing exchange rate -/

/-- C8: a transfer between accounts of distinct currencies fails with the
    missing-exchange-rate error whenever no stored rate for the resolved
    currency pair has a timestamp at or before midnight of the transaction
    date.  The conversion runs before any store write, so in the state-passing
    embedding the error leaves no successor state: nothing is persisted and
    both account balances are untouched. -/
theorem missing_rate_transfer_fails (db : DB) (fid tid : Nat) (amount : Amount)
    (description : Option String) (transaction_date : Option Nat) (today : Nat)
    (from_account to_account : Account) (cf ct cf2 ct2 : Currency)
    (hfa : get_account db fid = some from_account)
    (hta : get_account db tid = some to_account)
    (hcur : from_account.currency_id ≠ to_account.currency_id)
    (hcf : get_currency db from_account.currency_id = some cf)
    (hct : get_currency db to_account.currency_id = some ct)
    (hbf : get_by_code db cf.code = some cf2)
    (hbt : get_by_code db ct.code = some ct2)
    (hne : cf2.id ≠ ct2.id)
    (hnorate : ∀ r ∈ db.exchange_rates,
        ¬(r.from_currency_id = cf2.id ∧ r.to_currency_id = ct2.id
          ∧ r.timestamp ≤ dateStartTime (transaction_date.getD today))) :
    create_transfer db fid tid amount description transaction_date today
      = .error .exchangeRateMissing := by
  have hrate : get_exchange_rate db cf.code ct.code
      (some (dateStartTime (transaction_date.getD today))) = .ok none := by
    unfold get_exchange_rate
    simp only [hbf, hbt]
    rw [if_neg (by simpa using hne)]
    have hfilter : db.exchange_rates.filter (fun r =>
        r.from_currency_id == cf2.id && r.to_currency_id == ct2.id &&
          match some (dateStartTime (transaction_date.getD today)) with
          | some t => decide (r.timestamp ≤ t)
          | none => true) = [] := by
      rw [List.filter_eq_nil_iff]
      intro r hr
      have := hnorate r hr
      simp only [Bool.and_eq_true, beq_iff_eq, decide_eq_true_eq]
      intro hcontra
      exact this ⟨hcontra.1.1, hcontra.1.2, hcontra.2⟩
    rw [hfilter]
    rfl
  have hconv : tx_convert_amount db amount from_account to_account transaction_date today
      = .error .exchangeRateMissing := by
    unfold tx_convert_amount
    rw [if_neg (by simpa using hcur)]
    simp only [hcf, hct]
    unfold convert_amount
    simp only [hrate]
  unfold create_transfer
  simp only [hfa, hta, hconv]

/-- C8 witness: the theorem applied to `dbNoRate`, whose rate table is empty. -/
theorem missing_rate_transfer_fails_witness :
    create_transfer dbNoRate 1 2 10 none (some 3) 3 = .error .exchangeRateMissing :=
  missing_rate_transfer_fails dbNoRate 1 2 10 none (some 3) 3
    { id := 1, name := "Checking", currency_id := 1, balance := 0, is_external := false }
    { id := 2, name := "Savings", currency_id := 2, balance := 0, is_external := false }
    gbp usd gbp usd
    (by simp [get_account, dbNoRate, List.find?_cons])
    (by simp [get_account, dbNoRate, List.find?_cons])
    (by simp [gbp, usd])
    (by simp [get_currency, dbNoRate, gbp, usd, List.find?_cons])
    (by simp [get_currency, dbNoRate, gbp, usd, List.find?_cons])
    (by simp [get_by_code, dbNoRate, gbp, usd, upper_GBP, List.find?_cons])
    (by simp [get_by_code, dbNoRate, gbp, usd, upper_GBP, upper_USD, List.find?_cons])
    (by simp [gbp, usd])
    (by simp [dbNoRate])

/-! ### Claim C9: round-trip conversion -/

/-- C9 counterexample: with rate 2 stored for GBP to USD, a transfer of
    amount 0 succeeds; the credited amount 0 does equal 0 * 2, but the
    recorded exchange rate on the destination leg is 1, not the stored rate 2,
    because the source computes the leg rate as `to_amount / from_amount` only
    when the two amounts differ and records 1 otherwise. -/
theorem conversion_rate_counterexample :
    get_exchange_rate dbCross "GBP" "USD" (some (dateStartTime 3)) = .ok (some 2)
      ∧ (match create_transfer dbCross 1 2 0 none (some 3) 3 with
          | .ok p => some (p.1.legs.map (fun l => (l.credit, l.exchange_rate)))
          | .error _ => none) = some [(none, 1), (some 0, 1)] := by
  constructor
  · simp [get_exchange_rate, get_by_code, upper_GBP, upper_USD, latestRate, dbCross,
      gbp, usd, dateStartTime, List.find?_cons, List.filter_cons]
  · simp [create_transfer, get_account, tx_convert_amount, get_currency, convert_amount,
      get_exchange_rate, get_by_code, upper_GBP, upper_USD, latestRate, dateStartTime,
      transferDescription, dbCross, gbp, usd, List.find?_cons, List.filter_cons]

/-- C9 (amended): for a cross-currency transfer of a nonzero amount `x` with
    applicable stored rate `R`, the destination leg is credited exactly
    `x * R` and its recorded exchange rate is exactly `R` (when `x * R = x`
    the nonzero assumption forces `R = 1`, which is what gets recorded).  For
    `x = 0` the code records rate 1 regardless of `R` (see the
    counterexample). -/
theorem conversion_roundtrip_amended :
    ∀ db db' fid tid (x R : Amount) description transaction_date today tx
      from_account to_account cf ct,
      get_account db fid = some from_account →
      get_account db tid = some to_account →
      from_account.currency_id ≠ to_account.currency_id →
      get_currency db from_account.currency_id = some cf →
      get_currency db to_account.currency_id = some ct →
      get_exchange_rate db cf.code ct.code
        (some (dateStartTime (transaction_date.getD today))) = .ok (some R) →
      x ≠ 0 →
      create_transfer db fid tid x description transaction_date today = .ok (db', tx) →
      ∃ dleg cleg, db'.legs = db.legs ++ [dleg, cleg]
        ∧ cleg.account_id = tid ∧ cleg.credit = some (x * R)
        ∧ cleg.exchange_rate = R ∧ dleg.account_id = fid ∧ dleg.debit = some x := by
  intro db db' fid tid x R description transaction_date today tx from_account to_account
    cf ct hfa hta hcur hcf hct hrate hx h
  obtain ⟨fa2, ta2, from_amount, to_amount, hfa2, hta2, hconv, htx, hdb⟩ :=
    create_transfer_ok db db' fid tid x description transaction_date today tx h
  rw [hfa] at hfa2
  rw [hta] at hta2
  cases hfa2
  cases hta2
  have hconv2 : tx_convert_amount db x from_account to_account transaction_date today
      = .ok (x, x * R) := by
    unfold tx_convert_amount
    rw [if_neg (by simpa using hcur)]
    simp only [hcf, hct]
    unfold convert_amount
    simp only [hrate]
  rw [hconv2] at hconv
  cases hconv
  refine ⟨_, _, by rw [hdb], rfl, rfl, ?_, rfl, rfl⟩
  by_cases hchange : x ≠ x * R
  · rw [if_pos hchange]
    exact mul_div_cancel_left₀ R hx
  · rw [if_neg hchange]
    have hxr : x * R = x := (not_ne_iff.mp hchange).symm
    have hr1 : R = 1 := mul_left_cancel₀ hx (hxr.trans (mul_one x).symm)
    rw [hr1]

/-- C9 witness: the amended statement applied to a concrete transfer of 5 at
    rate 2 on `dbCross`. -/
theorem conversion_roundtrip_amended_witness :
    ∃ p, create_transfer dbCross 1 2 5 (some "c") (some 3) 3 = .ok p
      ∧ ∃ dleg cleg, p.1.legs = dbCross.legs ++ [dleg, cleg]
          ∧ cleg.account_id = 2 ∧ cleg.credit = some ((5 : Amount) * 2)
          ∧ cleg.exchange_rate = 2 ∧ dleg.account_id = 1 ∧ dleg.debit = some 5 := by
  have hrun : create_transfer dbCross 1 2 5 (some "c") (some 3) 3
      = .ok ({ dbCross with
               accounts :=
                 [ { id := 1, name := "Checking", currency_id := 1, balance := -5,
                     is_external := false },
                   { id := 2, name := "Savings", currency_id := 2, balance := 10,
                     is_external := false } ]
               transactions := [{ id := 1, description := "c", date := 3, currency_id := 1 }]
               legs :=
                 [ { id := 1, transaction_id := 1, account_id := 1, pot_id := none,
                     currency_id := 1, debit := some 5, credit := none, exchange_rate := 1 },
                   { id := 2, transaction_id := 1, account_id := 2, pot_id := none,
                     currency_id := 2, debit := none, credit := some 10,
                     exchange_rate := 2 } ]
               next_transaction_id := 2
               next_leg_id := 3 },
             { id := 1, description := "c", date := 3, currency_id := 1 }) := by
    simp [create_transfer, get_account, tx_convert_amount, get_currency, convert_amount,
      get_exchange_rate, get_by_code, upper_GBP, upper_USD, latestRate, dateStartTime,
      dbCross, gbp, usd, List.find?_cons, List.filter_cons]
    norm_num
  refine ⟨_, hrun, ?_⟩
  exact conversion_roundtrip_amended dbCross _ 1 2 5 2 (some "c") (some 3) 3 _
    { id := 1, name := "Checking", currency_id := 1, balance := 0, is_external := false }
    { id := 2, name := "Savings", currency_id := 2, balance := 0, is_external := false }
    gbp usd
    (by simp [get_account, dbCross, List.find?_cons])
    (by simp [get_account, dbCross, List.find?_cons])
    (by simp [gbp, usd])
    (by simp [get_currency, dbCross, gbp, usd, List.find?_cons])
    (by simp [get_currency, dbCross, gbp, usd, List.find?_cons])
    (by simp [get_exchange_rate, get_by_code, upper_GBP, upper_USD, latestRate, dbCross,
      gbp, usd, dateStartTime, List.find?_cons, List.filter_cons])
    (by norm_num)
    hrun

/-! ### Claim C10: create_account -/

/-- C10: the claim (and spec section 4.2) say `create_account` constructs and
    returns an unpersisted `Account`, but the code never gets that far: the
    positional `Currency(currency)` argument to the keyword-only declarative
    constructor raises `TypeError` on every call, before the `Account` is
    built and before any session write.  First conjunct: no call ever returns
    an account (so, as the claim's frame part expects, no state is ever
    committed); second conjunct: the code evaluated at the failing input
    `("Checking", "current", "GBP")` raises the `TypeError`. -/
theorem create_account_always_raises :
    (∀ db name account_type currency_code r,
        create_account db name account_type currency_code ≠ .ok r)
      ∧ create_account dbTwoGBP "Checking" "current" "GBP" = .error .typeError := by
  constructor
  · intro db name account_type currency_code r h
    unfold create_account at h
    split at h
    · cases h
    · cases h
  · simp [create_account, accountTypeStrings]

end Pennywise
